import Mathlib

/-!
Shallow embedding of the MCA CRM financial core (app/crud and app/models).

Conventions of the embedding:
* Python `Decimal` / SQLAlchemy `Numeric` values are modelled as exact
  rationals (`Rat`).  All arithmetic appearing in the claims is either exact
  in `Decimal` (sums, differences, products, exact divisions) or is compared
  against an integer from which it differs by far more than the 28-digit
  `Decimal` context rounding, so the rational model is faithful for every
  statement proved below.
* `datetime` / `date` values are modelled as integer day counts (`Int` for
  dates, `Nat` for timestamps); `datetime.utcnow()` / `date.today()` become
  explicit `now` / `today` parameters of the operations that read the clock.
* A SQLAlchemy session is modelled as an explicit record of tables
  (lists of rows).  `query(...).filter(...).first()` becomes `List.find?`,
  `order_by(id.desc()).first()` becomes a fold picking the row of greatest
  id, autoincrement primary keys become `freshId` (one greater than the
  maximum id present), and in-place mutation of a fetched row becomes
  `updateFirst` (replace the first row matched by the filter).
* Fallible operations return `Except`; an `Except.error` models a raised
  Python exception, after which the request-scoped session is rolled back,
  so no state change is observable (the error constructor carries no state).
* Python truthiness on optional values (`if x:`) is modelled by the
  `truthy*` helpers: `None`, `Decimal(0)`, `0` and `""` are falsy.
* String columns (statuses, deal numbers) are Lean `String`s; only fields
  that some claim touches are carried, plus the audit fields the operations
  themselves write.  Address/audit columns never read by the functions under
  study are omitted from the row records.
-/

namespace MCA

/-- Python exceptions raised by the CRUD layer. -/
inductive PyError where
  | attributeError (msg : String)
  | valueError (msg : String)
  deriving Repr, DecidableEq

/-- app/crud/principal.py exception taxonomy (PrincipalCRUDError and its
subclasses).  `ownershipExceeded` carries the offending total, mirroring the
format string of the raised message. -/
inductive PrincipalError where
  | duplicateSSN
  | ownershipExceeded (total : Rat)
  | generic (msg : String)
  deriving Repr, DecidableEq

/-- Row of `merchants` (app/models/merchant.py); only the primary key is read
by the operations studied here (`verify_merchant_exists`). -/
structure Merchant where
  id : Nat
  deriving Repr, DecidableEq

/-- Row of `principals` (app/models/principal.py).  The model defines no
soft-delete column; address/audit columns unread by the CRUD paths under
study are omitted. -/
structure Principal where
  id : Nat
  merchant_id : Nat
  first_name : String
  last_name : String
  ownership_percentage : Option Rat
  ssn : Option String
  is_primary_contact : Bool
  is_guarantor : Bool
  deriving Repr, DecidableEq

/-- Row of `offers` (app/models/offer.py).  `number_of_periods` is declared
`Integer`, but `calculate_offer_fields` stores `rtr / payment_amount`
(Python true division) into it, so the dynamic value is modelled as `Rat`. -/
structure Offer where
  id : Nat
  merchant_id : Nat
  advance : Rat
  factor : Rat
  upfront_fees : Rat
  upfront_fee_percentage : Rat
  specified_percentage : Rat
  payment_frequency : String
  renewal : Bool
  transfer_balance : Rat
  deal_id : Option String
  payment_amount : Option Rat
  number_of_periods : Option Rat
  rtr : Option Rat
  net_funds : Option Rat
  apr : Option Rat
  status : String
  sent_at : Option Nat
  selected_at : Option Nat
  funded_at : Option Nat
  is_deleted : Bool
  deleted_at : Option Nat
  deleted_by : Option String
  deriving Repr, DecidableEq

/-- Row of `deals` (app/models/deal.py).  Note: the model defines **no**
`upfront_fees` column (relevant to `update_renewal_info`).
`number_of_payments` is declared `Integer` but receives
`offer.number_of_periods or 1`, whose dynamic value may be the rational
stored there by `calculate_offer_fields`, hence `Rat`. -/
structure Deal where
  id : Nat
  merchant_id : Nat
  offer_id : Nat
  bank_account_id : Option Nat
  deal_number : String
  is_renewal : Bool
  total_transfer_balance : Rat
  net_cash_to_merchant : Option Rat
  funded_amount : Rat
  factor_rate : Rat
  rtr_amount : Rat
  payment_amount : Option Rat
  payment_frequency : String
  number_of_payments : Rat
  status : String
  funding_date : Int
  first_payment_date : Int
  maturity_date : Int
  actual_completion_date : Option Int
  total_paid : Rat
  balance_remaining : Rat
  payments_remaining : Rat
  last_payment_date : Option Int
  in_collections : Bool
  collections_notes : Option String
  notes : Option String
  created_by : Option String
  deriving Repr, DecidableEq

/-- Row of `payments` (app/models/payment.py).  The model defines **no**
`is_deleted` / `deleted_at` / `deleted_by` columns, although
app/crud/payment.py refers to them. -/
structure Payment where
  id : Nat
  deal_id : Nat
  date : Int
  amount : Rat
  type : String
  bounced : Bool
  notes : Option String
  deriving Repr, DecidableEq

/-- Row of `renewal_info` (app/models/renewal.py). -/
structure RenewalInfo where
  id : Nat
  old_deal_id : Nat
  transfer_balance : Rat
  final_payment_amount : Option Rat
  payoff_date : Option Int
  notes : Option String
  deriving Repr, DecidableEq

/-- Row of `deal_renewal_junction` (app/models/renewal.py). -/
structure DealRenewalJunction where
  id : Nat
  deal_id : Nat
  renewal_info_id : Nat
  deriving Repr, DecidableEq

/-- Row of `deal_renewal_relationships` (app/models/renewal.py). -/
structure DealRenewalRelationship where
  id : Nat
  old_deal_id : Nat
  new_deal_id : Nat
  renewal_info_id : Nat
  status : String
  is_deleted : Bool
  deriving Repr, DecidableEq

/-- The transactional relational store: one list of rows per table. -/
structure DB where
  merchants : List Merchant
  principals : List Principal
  offers : List Offer
  deals : List Deal
  payments : List Payment
  renewal_infos : List RenewalInfo
  junctions : List DealRenewalJunction
  relationships : List DealRenewalRelationship
  deriving Repr, DecidableEq

/-- Replace the first element satisfying `p` by `f` of it (SQLAlchemy:
mutate the row returned by `.filter(...).first()`). -/
def updateFirst (p : α → Bool) (f : α → α) : List α → List α
  | [] => []
  | x :: xs => if p x then f x :: xs else x :: updateFirst p f xs

/-- Autoincrement primary key: one greater than the largest id present. -/
def freshId (ids : List Nat) : Nat := ids.foldr max 0 + 1

/-- Python truthiness of an optional numeric value (`None` and `0` falsy). -/
def truthyQ : Option Rat → Bool
  | none => false
  | some q => q != 0

/-- Python truthiness of an optional integer (`None` and `0` falsy). -/
def truthyNat : Option Nat → Bool
  | none => false
  | some n => n != 0

/-- Python truthiness of an optional string (`None` and `""` falsy). -/
def truthyStr : Option String → Bool
  | none => false
  | some s => s != ""

/-- Python `x or 1` on an optional numeric value. -/
def pyOr1 (o : Option Rat) : Rat :=
  if truthyQ o then o.getD 0 else 1

/-! ### Offer financial calculator (app/crud/offer.py, calculate_offer_fields) -/

/-- The dict passed through `calculate_offer_fields`.  On both call sites
(create: `offer.dict()`, update: `current_data` merged with the patch) the
numeric keys are present, so the `.get(key, default)` defaults never fire
and the fields are plain values. -/
structure OfferData where
  advance : Rat
  factor : Rat
  upfront_fees : Rat
  payment_frequency : String
  number_of_periods : Option Rat
  payment_amount : Option Rat
  rtr : Rat := 0
  net_funds : Rat := 0
  apr : Rat := 0
  deriving Repr, DecidableEq

/-- app/crud/offer.py lines 11-74.  `rtr = advance * factor`,
`net_funds = advance - upfront_fees`; then the bidirectional
payment_amount / number_of_periods pairing and the APR, with Python
truthiness on the optional inputs.  The division on line 42
(`number_of_periods = rtr / payment_amount`) is Python **true** division. -/
def calculate_offer_fields (d : OfferData) : OfferData :=
  let rtr := d.advance * d.factor
  let net_funds := d.advance - d.upfront_fees
  let pa : Option Rat :=
    if truthyQ d.number_of_periods && decide (0 < d.number_of_periods.getD 0) then
      some (rtr / d.number_of_periods.getD 0)
    else if truthyQ d.payment_amount then
      d.payment_amount
    else
      some 0
  let np : Option Rat :=
    if truthyQ pa && decide (0 < pa.getD 0) && !truthyQ d.number_of_periods then
      some (rtr / pa.getD 0)
    else
      d.number_of_periods
  let total_cost := rtr - d.advance
  let apr : Rat :=
    if decide (0 < d.advance) && truthyQ np && decide (0 < np.getD 0) then
      if d.payment_frequency = "daily" then
        total_cost / d.advance * (365 / np.getD 0) * 100
      else if d.payment_frequency = "weekly" then
        total_cost / d.advance * (52 / np.getD 0) * 100
      else if d.payment_frequency = "bi-weekly" then
        total_cost / d.advance * (26 / np.getD 0) * 100
      else if d.payment_frequency = "monthly" then
        total_cost / d.advance * (12 / np.getD 0) * 100
      else 0
    else 0
  { d with rtr := rtr, net_funds := net_funds, payment_amount := pa,
           number_of_periods := np, apr := apr }

/-! ### Deal numbers (app/crud/deal.py, generate_deal_number)

A Python `str` is modelled as a Lean `String`; the rendering of
`f"MCA-(year)-(seq:04d)"` and the parsing `int(s.split('-')[-1])` are
modelled character-exactly on the underlying character lists. -/

/-- Decimal digit character of `d < 10`. -/
def digitChar (d : Nat) : Char := Char.ofNat (48 + d)

/-- Big-endian decimal digit characters of `n`, by fuelled division; `fuel ≥ n`
makes the fuel irrelevant (each step divides `n` by 10). -/
def natCharsAux : Nat → Nat → List Char
  | 0, _ => []
  | _ + 1, 0 => []
  | fuel + 1, n + 1 => natCharsAux fuel ((n + 1) / 10) ++ [digitChar ((n + 1) % 10)]

/-- Characters of the usual decimal rendering `str(n)` of a natural. -/
def natChars (n : Nat) : List Char :=
  if n = 0 then ['0'] else natCharsAux n n

/-- Python `format(n, "04d")`: left-pad with zeros to width 4. -/
def pad4 (cs : List Char) : List Char :=
  List.replicate (4 - cs.length) '0' ++ cs

/-- The string `f"MCA-(year)-(seq:04d)"`. -/
def renderDealNumber (year seq : Nat) : String :=
  ⟨"MCA-".data ++ natChars year ++ '-' :: pad4 (natChars seq)⟩

/-- The LIKE pattern prefix `f"MCA-(year)-"`. -/
def yearPat (year : Nat) : List Char :=
  "MCA-".data ++ natChars year ++ ['-']

/-- Suffix after the last dash: `s.split('-')[-1]` for a string that
contains at least one dash (every string it is applied to starts with
`"MCA-"`; on a dash-free string `split` returns the whole string, and so
does this function). -/
def afterLastDash (cs : List Char) : List Char :=
  (cs.reverse.takeWhile (fun c => c != '-')).reverse

/-- Python `int(s)` on the strings at hand: defined exactly on nonempty
all-digit strings (`int` also accepts signs and whitespace, which never
occur here), `none` modelling the `ValueError` it raises otherwise. -/
def pyInt? (cs : List Char) : Option Nat :=
  if cs ≠ [] ∧ cs.all Char.isDigit then
    some (cs.foldl (fun a c => 10 * a + (c.toNat - 48)) 0)
  else none

/-- The deals matching the `LIKE "MCA-(year)-%"` filter. -/
def yearDeals (current_year : Nat) (deals : List Deal) : List Deal :=
  deals.filter (fun d => (yearPat current_year).isPrefixOf d.deal_number.data)

/-- `order_by(id.desc()).first()`: the row with the greatest id. -/
def lastById (l : List Deal) : Option Deal :=
  l.foldl (fun acc d =>
    match acc with
    | none => some d
    | some a => if a.id < d.id then some d else some a) none

/-- app/crud/deal.py lines 13-29.  Filter the deals whose number matches
`LIKE "MCA-(year)-%"`, take the one with the greatest id
(`order_by(id.desc()).first()`), parse its trailing sequence number and
increment; start at 1 when none exists.  `none` models the `ValueError`
of `int()` on a malformed number.  `current_year` is `datetime.now().year`. -/
def generate_deal_number (deals : List Deal) (current_year : Nat) : Option String :=
  match lastById (yearDeals current_year deals) with
  | none => some (renderDealNumber current_year 1)
  | some last =>
    match pyInt? (afterLastDash last.deal_number.data) with
    | some lastSeq => some (renderDealNumber current_year (lastSeq + 1))
    | none => none

/-- The parsed sequence number of a deal number, 0 on parse failure (used
only to state invariants; the code's `int()` is `pyInt?`). -/
def seqD (s : String) : Nat := (pyInt? (afterLastDash s.data)).getD 0

/-- Greatest sequence number present among a year's deal numbers. -/
def maxSeq (current_year : Nat) (deals : List Deal) : Nat :=
  ((yearDeals current_year deals).map (fun d => seqD d.deal_number)).foldr max 0

/-- A deal number in canonical rendered form for the year: its trailing
component parses, and re-rendering the parse reproduces the string. -/
def wellFormedNum (current_year : Nat) (s : String) : Bool :=
  match pyInt? (afterLastDash s.data) with
  | some k => s == renderDealNumber current_year k
  | none => false

/-- Decidable check for states reachable by sequential deal creation within
a year: every deal number carrying the year's LIKE pattern is well formed,
and the row with the greatest id among them carries the greatest sequence
number. -/
def seqInvCheck (current_year : Nat) (deals : List Deal) : Bool :=
  (yearDeals current_year deals).all
    (fun d => wellFormedNum current_year d.deal_number) &&
  (match lastById (yearDeals current_year deals) with
   | none => true
   | some last => (yearDeals current_year deals).all
       (fun d => seqD d.deal_number ≤ seqD last.deal_number))

/-- The sequential-creation invariant as a proposition. -/
def SeqInv (current_year : Nat) (deals : List Deal) : Prop :=
  seqInvCheck current_year deals = true

/-! ### Deal lifecycle (app/crud/deal.py) -/

/-- app/crud/deal.py lines 32-45.  `timedelta` amounts are converted to
whole days by flooring; the float rounding inside `timedelta(weeks=n/5)`
differs from the exact value by less than a day for all inputs relevant
here and is not observed by any claim. -/
def calculate_maturity_date (funding_date : Int) (payment_frequency : String)
    (number_of_payments : Rat) : Int :=
  if payment_frequency = "daily" then funding_date + ⌊7 * number_of_payments / 5⌋
  else if payment_frequency = "weekly" then funding_date + ⌊7 * number_of_payments⌋
  else if payment_frequency = "bi-weekly" then funding_date + ⌊14 * number_of_payments⌋
  else if payment_frequency = "monthly" then funding_date + ⌊30 * number_of_payments⌋
  else funding_date + ⌊number_of_payments⌋

/-- app/schemas/deal.py DealCreate. -/
structure DealCreate where
  merchant_id : Nat
  offer_id : Nat
  bank_account_id : Option Nat
  funding_date : Int
  first_payment_date : Int
  notes : Option String
  created_by : Option String
  deriving Repr, DecidableEq

/-- app/crud/deal.py lines 48-109 (create_deal).  Copies terms from the
offer, generates the deal number, initialises balances, and sets the offer
to `funded` stamping `funded_at = datetime.utcnow()` **unconditionally**
(lines 104-105). -/
def create_deal (db : DB) (deal : DealCreate) (current_year : Nat) (now : Nat) :
    Except PyError (DB × Deal) :=
  match db.offers.find? (fun o => o.id == deal.offer_id) with
  | none => .error (.valueError "Offer not found")
  | some offer =>
    let rtr_amount := offer.advance * offer.factor
    let nper := pyOr1 offer.number_of_periods
    let maturity_date :=
      calculate_maturity_date deal.funding_date offer.payment_frequency nper
    let net_cash := offer.advance - offer.upfront_fees
    match generate_deal_number db.deals current_year with
    | none => .error (.valueError "invalid literal for int with base 10")
    | some num =>
      let db_deal : Deal :=
        { id := freshId (db.deals.map (·.id))
          merchant_id := deal.merchant_id
          offer_id := deal.offer_id
          bank_account_id := deal.bank_account_id
          deal_number := num
          funded_amount := offer.advance
          factor_rate := offer.factor
          rtr_amount := rtr_amount
          payment_amount := offer.payment_amount
          payment_frequency := offer.payment_frequency
          number_of_payments := nper
          funding_date := deal.funding_date
          first_payment_date := deal.first_payment_date
          maturity_date := maturity_date
          balance_remaining := rtr_amount
          payments_remaining := nper
          is_renewal := false
          total_transfer_balance := 0
          net_cash_to_merchant := some net_cash
          total_paid := 0
          last_payment_date := none
          actual_completion_date := none
          in_collections := false
          collections_notes := none
          notes := deal.notes
          created_by := deal.created_by
          status := "active" }
      let offers' := updateFirst (fun o => o.id == deal.offer_id)
        (fun o => { o with status := "funded", funded_at := some now }) db.offers
      .ok ({ db with deals := db.deals ++ [db_deal], offers := offers' }, db_deal)

/-- app/schemas/deal.py DealUpdate; `none` = field absent from the patch
(`exclude_unset=True`). -/
structure DealUpdate where
  bank_account_id : Option Nat := none
  status : Option String := none
  payment_amount : Option Rat := none
  in_collections : Option Bool := none
  collections_notes : Option String := none
  notes : Option String := none
  deriving Repr, DecidableEq

/-- app/crud/deal.py lines 162-180 (update_deal).  When the patch sets
`status = "completed"` and no `actual_completion_date` is stored yet, the
patch is extended with `actual_completion_date = date.today()`. -/
def update_deal (db : DB) (deal_id : Nat) (upd : DealUpdate) (today : Int) :
    DB × Option Deal :=
  match db.deals.find? (fun d => d.id == deal_id) with
  | none => (db, none)
  | some d =>
    let acd :=
      if upd.status == some "completed" && d.actual_completion_date.isNone then
        some today
      else d.actual_completion_date
    let d' : Deal :=
      { d with
        bank_account_id := match upd.bank_account_id with
          | some v => some v | none => d.bank_account_id
        status := upd.status.getD d.status
        payment_amount := match upd.payment_amount with
          | some v => some v | none => d.payment_amount
        in_collections := upd.in_collections.getD d.in_collections
        collections_notes := match upd.collections_notes with
          | some v => some v | none => d.collections_notes
        notes := match upd.notes with | some v => some v | none => d.notes
        actual_completion_date := acd }
    ({ db with deals := updateFirst (fun dd => dd.id == deal_id) (fun _ => d') db.deals },
     some d')

/-- app/crud/deal.py lines 183-215 (update_deal_balance).  Sums the
amounts of the deal's payments filtered **only** by `bounced == False`
(the Payment model has no `is_deleted` column and the query has no
deleted-filter), recomputes the balance fields, and when
`balance_remaining <= 0` sets `status = "completed"` and
**unconditionally** overwrites `actual_completion_date` with today
(lines 208-210). -/
def update_deal_balance (db : DB) (deal_id : Nat) (today : Int) :
    DB × Option Deal :=
  match db.deals.find? (fun d => d.id == deal_id) with
  | none => (db, none)
  | some d =>
    let payments := db.payments.filter
      (fun p => p.deal_id == deal_id && p.bounced == false)
    let total_paid : Rat := (payments.map (·.amount)).sum
    let d1 : Deal :=
      { d with total_paid := total_paid
               balance_remaining := d.rtr_amount - total_paid
               payments_remaining := d.number_of_payments - (payments.length : Rat) }
    let d2 : Deal :=
      match payments.map (·.date) with
      | [] => d1
      | x :: xs => { d1 with last_payment_date := some (xs.foldl max x) }
    let d3 : Deal :=
      if d2.balance_remaining ≤ 0 then
        { d2 with status := "completed", actual_completion_date := some today }
      else d2
    ({ db with deals := updateFirst (fun dd => dd.id == deal_id) (fun _ => d3) db.deals },
     some d3)

/-! ### Offer lifecycle (app/crud/offer.py, update_offer) -/

/-- app/schemas/offer.py OfferUpdate; `none` = field absent from the patch
(`exclude_unset=True`).  Explicitly-null patches of optional fields are not
distinguished from absent ones; no claim depends on that distinction. -/
structure OfferUpdate where
  advance : Option Rat := none
  factor : Option Rat := none
  upfront_fees : Option Rat := none
  upfront_fee_percentage : Option Rat := none
  specified_percentage : Option Rat := none
  payment_frequency : Option String := none
  renewal : Option Bool := none
  transfer_balance : Option Rat := none
  deal_id : Option String := none
  status : Option String := none
  payment_amount : Option Rat := none
  number_of_periods : Option Rat := none
  deriving Repr, DecidableEq

/-- app/crud/offer.py lines 126-160 (update_offer).  When a financial field
is in the patch, current values are merged with the patch and
`calculate_offer_fields` is re-run; a status change stamps `sent_at` /
`selected_at` / `funded_at` only when the current value is null
(lines 146-153). -/
def update_offer (db : DB) (offer_id : Nat) (upd : OfferUpdate) (now : Nat) :
    DB × Option Offer :=
  match db.offers.find? (fun o => o.id == offer_id) with
  | none => (db, none)
  | some o =>
    let recalc :=
      upd.advance.isSome || upd.factor.isSome || upd.upfront_fees.isSome ||
      upd.number_of_periods.isSome || upd.payment_amount.isSome ||
      upd.payment_frequency.isSome
    let o1 : Offer :=
      if recalc then
        let merged : OfferData :=
          { advance := upd.advance.getD o.advance
            factor := upd.factor.getD o.factor
            upfront_fees := upd.upfront_fees.getD o.upfront_fees
            payment_frequency := upd.payment_frequency.getD o.payment_frequency
            number_of_periods := match upd.number_of_periods with
              | some v => some v | none => o.number_of_periods
            payment_amount := match upd.payment_amount with
              | some v => some v | none => o.payment_amount }
        let c := calculate_offer_fields merged
        { o with
          advance := c.advance, factor := c.factor, upfront_fees := c.upfront_fees
          payment_frequency := c.payment_frequency
          payment_amount := c.payment_amount
          number_of_periods := c.number_of_periods
          rtr := some c.rtr, net_funds := some c.net_funds, apr := some c.apr
          upfront_fee_percentage := upd.upfront_fee_percentage.getD o.upfront_fee_percentage
          specified_percentage := upd.specified_percentage.getD o.specified_percentage
          renewal := upd.renewal.getD o.renewal
          transfer_balance := upd.transfer_balance.getD o.transfer_balance
          deal_id := match upd.deal_id with | some v => some v | none => o.deal_id
          status := upd.status.getD o.status }
      else
        { o with
          upfront_fee_percentage := upd.upfront_fee_percentage.getD o.upfront_fee_percentage
          specified_percentage := upd.specified_percentage.getD o.specified_percentage
          renewal := upd.renewal.getD o.renewal
          transfer_balance := upd.transfer_balance.getD o.transfer_balance
          deal_id := match upd.deal_id with | some v => some v | none => o.deal_id
          status := upd.status.getD o.status }
    let o2 : Offer :=
      if upd.status == some "sent" && o.sent_at.isNone then
        { o1 with sent_at := some now }
      else if upd.status == some "selected" && o.selected_at.isNone then
        { o1 with selected_at := some now }
      else if upd.status == some "funded" && o.funded_at.isNone then
        { o1 with funded_at := some now }
      else o1
    ({ db with offers := updateFirst (fun oo => oo.id == offer_id) (fun _ => o2) db.offers },
     some o2)

/-! ### Payment ledger (app/crud/payment.py) -/

/-- app/schemas/payment.py PaymentCreate. -/
structure PaymentCreate where
  deal_id : Nat
  date : Int
  amount : Rat
  type : String
  bounced : Bool := false
  notes : Option String := none
  deriving Repr, DecidableEq

/-- app/crud/payment.py lines 11-17 (create_payment).  Inserts the row and
commits; it performs **no** deal-balance recomputation and touches no deal
row. -/
def create_payment (db : DB) (payment : PaymentCreate) : DB × Payment :=
  let p : Payment :=
    { id := freshId (db.payments.map (·.id))
      deal_id := payment.deal_id
      date := payment.date
      amount := payment.amount
      type := payment.type
      bounced := payment.bounced
      notes := payment.notes }
  ({ db with payments := db.payments ++ [p] }, p)

/-- app/crud/payment.py lines 158-187 (delete_payment).  Its first statement
filters on `PaymentModel.is_deleted`, but the Payment model
(app/models/payment.py) defines no such column, so the class-attribute
access raises `AttributeError` before any row is read or written; the
soft-delete and the balance update below it are unreachable. -/
def delete_payment (_db : DB) (_payment_id : Nat) (_deleted_by : Option String) :
    Except PyError (DB × Bool) :=
  .error (.attributeError "type object Payment has no attribute is_deleted")

/-- app/crud/payment.py lines 205-223 (restore_payment).  Same failure as
`delete_payment`: the query filters on the nonexistent
`PaymentModel.is_deleted` and raises `AttributeError` immediately. -/
def restore_payment (_db : DB) (_payment_id : Nat) :
    Except PyError (DB × Option Payment) :=
  .error (.attributeError "type object Payment has no attribute is_deleted")

/-- app/schemas/payment.py PaymentSummary. -/
structure PaymentSummary where
  total_payments : Nat
  total_amount : Rat
  total_bounced : Nat
  bounced_amount : Rat
  last_payment_date : Option Int
  average_payment : Option Rat
  deriving Repr, DecidableEq

/-- app/crud/payment.py lines 71-99 (get_payment_summary_by_deal).
Line 73 materialises the query into a Python list with `.all()`; line 76
then calls `.filter(...)` on that list whenever `include_deleted` is false,
which raises `AttributeError` (lists have no `filter` method) before the
summary is computed.  With `include_deleted=True` the branch is skipped and
the summary is computed from all of the deal's payments. -/
def get_payment_summary_by_deal (db : DB) (deal_id : Nat)
    (include_deleted : Bool := false) : Except PyError PaymentSummary :=
  let payments := db.payments.filter (fun p => p.deal_id == deal_id)
  if !include_deleted then
    .error (.attributeError "list object has no attribute filter")
  else if payments.isEmpty then
    .ok { total_payments := 0, total_amount := 0, total_bounced := 0,
          bounced_amount := 0, last_payment_date := none, average_payment := none }
  else
    let total_amount := (payments.map (·.amount)).sum
    let bounced_payments := payments.filter (·.bounced)
    .ok { total_payments := payments.length
          total_amount := total_amount
          total_bounced := bounced_payments.length
          bounced_amount := (bounced_payments.map (·.amount)).sum
          last_payment_date := match payments.map (·.date) with
            | [] => none
            | x :: xs => some (xs.foldl max x)
          average_payment := some (total_amount / (payments.length : Rat)) }

/-! ### Renewal engine (app/crud/renewal.py) -/

/-- app/schemas/renewal.py RenewalDealInfo. -/
structure RenewalDealInfo where
  old_deal_id : Nat
  transfer_balance : Rat
  payoff_date : Option Int := none
  notes : Option String := none
  deriving Repr, DecidableEq

/-- app/schemas/renewal.py CreateRenewalDeal. -/
structure CreateRenewalDeal where
  merchant_id : Nat
  offer_id : Nat
  bank_account_id : Option Nat
  funding_date : Int
  first_payment_date : Int
  old_deals : List RenewalDealInfo
  notes : Option String := none
  created_by : Option String := none
  deriving Repr, DecidableEq

/-- The old-deal status flip of app/crud/renewal.py lines 120-122: fetch the
first deal matching `old_deal_id` and, if present, set its status to
`"renewed"`. -/
def renewalDealsStep (deals : List Deal) (odi : RenewalDealInfo) : List Deal :=
  if (deals.find? (fun d => d.id == odi.old_deal_id)).isSome then
    updateFirst (fun d => d.id == odi.old_deal_id)
      (fun d => { d with status := "renewed" }) deals
  else deals

/-- One iteration of the loop on app/crud/renewal.py lines 92-122: create a
RenewalInfo, a junction to the new deal, an `"active"` relationship, and set
the first deal matching `old_deal_id` (if any) to `"renewed"`. -/
def renewalStep (newDealId : Nat)
    (acc : List RenewalInfo × List DealRenewalJunction ×
           List DealRenewalRelationship × List Deal)
    (odi : RenewalDealInfo) :
    List RenewalInfo × List DealRenewalJunction ×
    List DealRenewalRelationship × List Deal :=
  let (ris, js, rels, deals) := acc
  let riId := freshId (ris.map (·.id))
  let ri : RenewalInfo :=
    { id := riId, old_deal_id := odi.old_deal_id,
      transfer_balance := odi.transfer_balance,
      final_payment_amount := none, payoff_date := odi.payoff_date,
      notes := odi.notes }
  let j : DealRenewalJunction :=
    { id := freshId (js.map (·.id)), deal_id := newDealId, renewal_info_id := riId }
  let rel : DealRenewalRelationship :=
    { id := freshId (rels.map (·.id)), old_deal_id := odi.old_deal_id,
      new_deal_id := newDealId, renewal_info_id := riId,
      status := "active", is_deleted := false }
  (ris ++ [ri], js ++ [j], rels ++ [rel], renewalDealsStep deals odi)

/-- The new Deal row built on app/crud/renewal.py lines 54-86:
`is_renewal=True`, `total_transfer_balance` the sum of the listed transfer
balances, `net_cash = advance - upfront_fees - total_transfer`, financial
terms copied from the offer. -/
def renewalNewDeal (rd : CreateRenewalDeal) (offer : Offer) (num : String)
    (nid : Nat) : Deal :=
  let total_transfer_balance := (rd.old_deals.map (·.transfer_balance)).sum
  let rtr_amount := offer.advance * offer.factor
  let nper := pyOr1 offer.number_of_periods
  { id := nid
    merchant_id := rd.merchant_id
    offer_id := rd.offer_id
    bank_account_id := rd.bank_account_id
    deal_number := num
    is_renewal := true
    total_transfer_balance := total_transfer_balance
    net_cash_to_merchant :=
      some (offer.advance - offer.upfront_fees - total_transfer_balance)
    funded_amount := offer.advance
    factor_rate := offer.factor
    rtr_amount := rtr_amount
    payment_amount := offer.payment_amount
    payment_frequency := offer.payment_frequency
    number_of_payments := nper
    funding_date := rd.funding_date
    first_payment_date := rd.first_payment_date
    maturity_date :=
      calculate_maturity_date rd.funding_date offer.payment_frequency nper
    balance_remaining := rtr_amount
    payments_remaining := nper
    total_paid := 0
    last_payment_date := none
    actual_completion_date := none
    in_collections := false
    collections_notes := none
    notes := rd.notes
    created_by := rd.created_by
    status := "active" }

/-- app/crud/renewal.py lines 32-130 (create_renewal_deal).  Sums the
transfer balances, copies terms from the offer, creates the new deal with
`is_renewal=True` and `net_cash = advance - upfront_fees - total_transfer`,
runs the per-old-deal loop, and marks the offer funded stamping `funded_at`
**unconditionally** (lines 125-126). -/
def create_renewal_deal (db : DB) (rd : CreateRenewalDeal)
    (current_year : Nat) (now : Nat) : Except PyError (DB × Deal) :=
  match db.offers.find? (fun o => o.id == rd.offer_id) with
  | none => .error (.valueError "Offer not found")
  | some offer =>
    match generate_deal_number db.deals current_year with
    | none => .error (.valueError "invalid literal for int with base 10")
    | some num =>
      let newId := freshId (db.deals.map (·.id))
      let db_deal : Deal := renewalNewDeal rd offer num newId
      let (ris', js', rels', deals') :=
        rd.old_deals.foldl (renewalStep newId)
          (db.renewal_infos, db.junctions, db.relationships, db.deals ++ [db_deal])
      let offers' := updateFirst (fun o => o.id == rd.offer_id)
        (fun o => { o with status := "funded", funded_at := some now }) db.offers
      let db' : DB :=
        { db with deals := deals', offers := offers', renewal_infos := ris',
                  junctions := js', relationships := rels' }
      .ok (db', (deals'.find? (fun d => d.id == newId)).getD db_deal)

/-- app/crud/renewal.py lines 133-139 (get_renewal_info_by_deal): the
RenewalInfo rows joined to the deal through DealRenewalJunction. -/
def get_renewal_info_by_deal (db : DB) (deal_id : Nat) : List RenewalInfo :=
  db.renewal_infos.filter (fun ri =>
    db.junctions.any (fun j => j.renewal_info_id == ri.id && j.deal_id == deal_id))

/-- app/schemas/renewal.py RenewalInfoUpdate; `none` = field absent
(`exclude_unset=True`). -/
structure RenewalInfoUpdate where
  transfer_balance : Option Rat := none
  final_payment_amount : Option Rat := none
  payoff_date : Option Int := none
  notes : Option String := none
  deriving Repr, DecidableEq

/-- app/crud/renewal.py lines 241-271 (update_renewal_info).  Applies the
patch to the RenewalInfo; when the patch contains `transfer_balance` and a
junction and its deal exist, line 266 reads `deal.upfront_fees` — a column
the Deal model (app/models/deal.py) does not define — raising
`AttributeError` before `db.commit()` on line 268, so the transaction is
rolled back and nothing is persisted (the error result carries no state). -/
def update_renewal_info (db : DB) (renewal_info_id : Nat)
    (upd : RenewalInfoUpdate) : Except PyError (DB × Option RenewalInfo) :=
  match db.renewal_infos.find? (fun ri => ri.id == renewal_info_id) with
  | none => .ok (db, none)
  | some ri =>
    let ri' : RenewalInfo :=
      { ri with
        transfer_balance := upd.transfer_balance.getD ri.transfer_balance
        final_payment_amount := match upd.final_payment_amount with
          | some v => some v | none => ri.final_payment_amount
        payoff_date := match upd.payoff_date with
          | some v => some v | none => ri.payoff_date
        notes := match upd.notes with | some v => some v | none => ri.notes }
    let db1 : DB :=
      { db with renewal_infos := updateFirst (fun r => r.id == renewal_info_id)
                  (fun _ => ri') db.renewal_infos }
    if upd.transfer_balance.isSome then
      match db1.junctions.find? (fun j => j.renewal_info_id == renewal_info_id) with
      | none => .ok (db1, some ri')
      | some j =>
        match db1.deals.find? (fun d => d.id == j.deal_id) with
        | none => .ok (db1, some ri')
        | some _deal =>
          .error (.attributeError "Deal object has no attribute upfront_fees")
    else .ok (db1, some ri')

/-- app/crud/renewal.py lines 274-295 (reverse_renewal).  Flips the first
active relationship for the pair to `"reversed"` and, only if the old deal
is currently `"renewed"`, reverts it to `"active"`.  Touches no other row. -/
def reverse_renewal (db : DB) (old_deal_id new_deal_id : Nat) : DB × Bool :=
  let isRel : DealRenewalRelationship → Bool := fun r =>
    r.old_deal_id == old_deal_id && r.new_deal_id == new_deal_id &&
    r.status == "active"
  match db.relationships.find? isRel with
  | none => (db, false)
  | some _rel =>
    let rels' := updateFirst isRel (fun r => { r with status := "reversed" }) db.relationships
    let deals' :=
      match db.deals.find? (fun d => d.id == old_deal_id) with
      | some od =>
        if od.status = "renewed" then
          updateFirst (fun d => d.id == old_deal_id)
            (fun d => { d with status := "active" }) db.deals
        else db.deals
      | none => db.deals
    ({ db with relationships := rels', deals := deals' }, true)

/-! ### Ownership ledger (app/crud/principal.py) -/

/-- app/schemas/principal.py PrincipalCreate (validated fields irrelevant to
the ownership claims are omitted). -/
structure PrincipalCreate where
  merchant_id : Nat
  first_name : String
  last_name : String
  ownership_percentage : Option Rat := some 100
  ssn : Option String := none
  is_primary_contact : Bool := false
  is_guarantor : Bool := true
  deriving Repr, DecidableEq

/-- app/crud/principal.py lines 36-43 (calculate_total_ownership).  Sums
`ownership_percentage or 0` over the merchant's principals; the exclusion
filter is applied only when `exclude_principal_id` is truthy (so neither
`None` nor `0`). -/
def calculate_total_ownership (db : DB) (merchant_id : Nat)
    (exclude_principal_id : Option Nat := none) : Rat :=
  let q := db.principals.filter (fun p => p.merchant_id == merchant_id)
  let q :=
    if truthyNat exclude_principal_id then
      q.filter (fun p => p.id != exclude_principal_id.getD 0)
    else q
  (q.map (fun p => p.ownership_percentage.getD 0)).sum

/-- The bulk `.update({"is_primary_contact": False})` of create_principal
applied to one row: unset the flag on every principal of the merchant. -/
def unsetPrimary (mid : Nat) (q : Principal) : Principal :=
  if q.merchant_id == mid then { q with is_primary_contact := false } else q

/-- The bulk update of update_principal applied to one row: unset the flag
on every principal of the merchant other than the one being updated. -/
def unsetPrimaryExcept (mid pid : Nat) (q : Principal) : Principal :=
  if q.merchant_id == mid && q.id != pid then
    { q with is_primary_contact := false }
  else q

/-- app/crud/principal.py lines 56-109 (create_principal).  Checks merchant
existence, per-merchant SSN duplication, then the ownership bound
(`current + new > 100` rejects with OwnershipExceededError before any
write); a truthy `is_primary_contact` bulk-unsets the flag on the
merchant's other principals before the insert. -/
def create_principal (db : DB) (principal : PrincipalCreate) :
    Except PrincipalError (DB × Principal) :=
  if (db.merchants.find? (fun m => m.id == principal.merchant_id)).isNone then
    .error (.generic "Merchant not found")
  else if truthyStr principal.ssn &&
      (db.principals.find? (fun q =>
        q.merchant_id == principal.merchant_id && q.ssn == principal.ssn)).isSome then
    .error .duplicateSSN
  else
    let current_total := calculate_total_ownership db principal.merchant_id none
    let new_total := current_total + principal.ownership_percentage.getD 0
    if new_total > 100 then
      .error (.ownershipExceeded new_total)
    else
      let ps1 :=
        if principal.is_primary_contact then
          db.principals.map (unsetPrimary principal.merchant_id)
        else db.principals
      let newP : Principal :=
        { id := freshId (db.principals.map (·.id))
          merchant_id := principal.merchant_id
          first_name := principal.first_name
          last_name := principal.last_name
          ownership_percentage := principal.ownership_percentage
          ssn := principal.ssn
          is_primary_contact := principal.is_primary_contact
          is_guarantor := principal.is_guarantor }
      .ok ({ db with principals := ps1 ++ [newP] }, newP)

/-- app/schemas/principal.py PrincipalUpdate; outer `none` = field absent
(`exclude_unset=True`), inner option = explicit null for nullable columns. -/
structure PrincipalUpdate where
  first_name : Option String := none
  last_name : Option String := none
  ownership_percentage : Option (Option Rat) := none
  ssn : Option (Option String) := none
  is_primary_contact : Option Bool := none
  is_guarantor : Option Bool := none
  deriving Repr, DecidableEq

/-- app/crud/principal.py lines 152-224 (update_principal).  SSN and
ownership checks run (and may reject, rolling back) before any write; a
truthy `is_primary_contact` patch bulk-unsets the flag on the merchant's
other principals; then the patch is applied to the row. -/
def update_principal (db : DB) (principal_id : Nat) (upd : PrincipalUpdate) :
    Except PrincipalError (DB × Option Principal) :=
  match db.principals.find? (fun p => p.id == principal_id) with
  | none => .ok (db, none)
  | some dbp =>
    if upd.ssn.isSome && truthyStr (upd.ssn.getD none) &&
        (db.principals.find? (fun q =>
          q.merchant_id == dbp.merchant_id && q.ssn == upd.ssn.getD none &&
          q.id != principal_id)).isSome then
      .error .duplicateSSN
    else if upd.ownership_percentage.isSome &&
        decide (calculate_total_ownership db dbp.merchant_id (some principal_id) +
          (upd.ownership_percentage.getD none).getD 0 > 100) then
      .error (.ownershipExceeded
        (calculate_total_ownership db dbp.merchant_id (some principal_id) +
          (upd.ownership_percentage.getD none).getD 0))
    else
      let ps1 :=
        if (upd.is_primary_contact.getD false) then
          db.principals.map (unsetPrimaryExcept dbp.merchant_id principal_id)
        else db.principals
      let dbp' : Principal :=
        { dbp with
          first_name := upd.first_name.getD dbp.first_name
          last_name := upd.last_name.getD dbp.last_name
          ownership_percentage := match upd.ownership_percentage with
            | some v => v | none => dbp.ownership_percentage
          ssn := match upd.ssn with | some v => v | none => dbp.ssn
          is_primary_contact := upd.is_primary_contact.getD dbp.is_primary_contact
          is_guarantor := upd.is_guarantor.getD dbp.is_guarantor }
      .ok ({ db with principals :=
              updateFirst (fun p => p.id == principal_id) (fun _ => dbp') ps1 },
           some dbp')

/-! ### Concrete fixtures used by the closed theorems and witnesses -/

/-- An active deal with rtr 1000 and no recorded payments. -/
def dealA : Deal :=
  { id := 1, merchant_id := 1, offer_id := 1, bank_account_id := none,
    deal_number := "MCA-2025-0001", is_renewal := false,
    total_transfer_balance := 0, net_cash_to_merchant := some 900,
    funded_amount := 800, factor_rate := 5/4, rtr_amount := 1000,
    payment_amount := some 100, payment_frequency := "daily",
    number_of_payments := 10, status := "active", funding_date := 0,
    first_payment_date := 1, maturity_date := 14,
    actual_completion_date := none, total_paid := 0,
    balance_remaining := 1000, payments_remaining := 10,
    last_payment_date := none, in_collections := false,
    collections_notes := none, notes := none, created_by := none }

/-- Store for the C7 witness: two sequentially numbered deals of 2025. -/
def dbC7 : DB :=
  { merchants := [⟨1⟩], principals := [], offers := [],
    deals := [{ dealA with id := 1, deal_number := "MCA-2025-0001" },
              { dealA with id := 2, deal_number := "MCA-2025-0002" }],
    payments := [], renewal_infos := [], junctions := [], relationships := [] }

/-- Store for the C1 scenario: one deal, empty payment ledger. -/
def dbC1 : DB :=
  { merchants := [⟨1⟩], principals := [], offers := [], deals := [dealA],
    payments := [], renewal_infos := [], junctions := [], relationships := [] }

/-- The payment recorded against the deal in the C1 scenario. -/
def payC1 : PaymentCreate :=
  { deal_id := 1, date := 3, amount := 100, type := "ACH" }

/-- Store for the C2 scenario: the deal together with one non-bounced
payment of 100 already on its ledger. -/
def dbC2 : DB :=
  { merchants := [⟨1⟩], principals := [], offers := [], deals := [dealA],
    payments := [{ id := 1, deal_id := 1, date := 3, amount := 100,
                   type := "ACH", bounced := false, notes := none }],
    renewal_infos := [], junctions := [], relationships := [] }

/-- A deal already completed on day 5 (rtr fully paid), for the C8 scenario. -/
def dealC8 : Deal :=
  { dealA with rtr_amount := 100, balance_remaining := 0, total_paid := 100,
               status := "completed", actual_completion_date := some 5 }

/-- Store for the C8 scenario: the completed deal and the payment that paid
it off. -/
def dbC8 : DB :=
  { merchants := [⟨1⟩], principals := [], offers := [], deals := [dealC8],
    payments := [{ id := 1, deal_id := 1, date := 3, amount := 100,
                   type := "ACH", bounced := false, notes := none }],
    renewal_infos := [], junctions := [], relationships := [] }

/-- RenewalInfo fixture for the C10 witness. -/
def riC10 : RenewalInfo :=
  { id := 1, old_deal_id := 1, transfer_balance := 250,
    final_payment_amount := none, payoff_date := none, notes := none }

/-- Store for the C10 witness: a renewal info linked through a junction to
renewal deal 2. -/
def dbC10 : DB :=
  { merchants := [⟨1⟩], principals := [], offers := [],
    deals := [dealA, { dealA with id := 2, is_renewal := true }],
    payments := [], renewal_infos := [riC10],
    junctions := [{ id := 1, deal_id := 2, renewal_info_id := 1 }],
    relationships := [{ id := 1, old_deal_id := 1, new_deal_id := 2,
                        renewal_info_id := 1, status := "active",
                        is_deleted := false }] }

/-- Offer fixture for the C6 scenarios: already sent (day 1), selected
(day 2) and funded (day 5). -/
def offerC6 : Offer :=
  { id := 1, merchant_id := 1, advance := 10000, factor := 6/5,
    upfront_fees := 500, upfront_fee_percentage := 0,
    specified_percentage := 15, payment_frequency := "daily",
    renewal := false, transfer_balance := 0, deal_id := none,
    payment_amount := some 120, number_of_periods := some 100,
    rtr := some 12000, net_funds := some 9500, apr := none,
    status := "selected", sent_at := some 1, selected_at := some 2,
    funded_at := some 5, is_deleted := false, deleted_at := none,
    deleted_by := none }

/-- Store for the C6 scenarios: the stamped offer, no deals yet. -/
def dbC6 : DB :=
  { merchants := [⟨1⟩], principals := [], offers := [offerC6], deals := [],
    payments := [], renewal_infos := [], junctions := [], relationships := [] }

/-- Deal-creation request consuming the C6 offer. -/
def dealCreateC6 : DealCreate :=
  { merchant_id := 1, offer_id := 1, bank_account_id := none,
    funding_date := 0, first_payment_date := 1, notes := none,
    created_by := none }

/-- Renewal-deal request consuming the C6 offer against old deal 1. -/
def renewalCreateC6 : CreateRenewalDeal :=
  { merchant_id := 1, offer_id := 1, bank_account_id := none,
    funding_date := 0, first_payment_date := 1,
    old_deals := [{ old_deal_id := 1, transfer_balance := 300 }] }

/-- Offer input of spec §8 property 2: advance 50000, factor 1.3
(rtr 65000), a user-supplied payment amount and no period count. -/
def offerDataC3 (pa : Rat) : OfferData :=
  { advance := 50000, factor := 13/10, upfront_fees := 0,
    payment_frequency := "daily", number_of_periods := none,
    payment_amount := some pa }

/-- Selected offer consumed by the C4 renewal: advance 10000, factor 1.2,
upfront fees 500. -/
def offerC4 : Offer :=
  { id := 1, merchant_id := 1, advance := 10000, factor := 6/5,
    upfront_fees := 500, upfront_fee_percentage := 0,
    specified_percentage := 15, payment_frequency := "weekly",
    renewal := true, transfer_balance := 0, deal_id := none,
    payment_amount := some 600, number_of_periods := some 20,
    rtr := some 12000, net_funds := some 9500, apr := none,
    status := "selected", sent_at := some 1, selected_at := some 2,
    funded_at := none, is_deleted := false, deleted_at := none,
    deleted_by := none }

/-- Store for the C4 creation witness: two active old deals and the
selected offer. -/
def dbC4 : DB :=
  { merchants := [⟨1⟩], principals := [], offers := [offerC4],
    deals := [dealA, { dealA with id := 2, deal_number := "MCA-2025-0002" }],
    payments := [], renewal_infos := [], junctions := [], relationships := [] }

/-- Renewal request rolling both old deals (balances 300 and 200) into the
C4 offer. -/
def renewalCreateC4 : CreateRenewalDeal :=
  { merchant_id := 1, offer_id := 1, bank_account_id := none,
    funding_date := 0, first_payment_date := 7,
    old_deals := [{ old_deal_id := 1, transfer_balance := 300 },
                  { old_deal_id := 2, transfer_balance := 200 }] }

/-- Store for the C4 reversal witness: old deal 1 already `"renewed"` into
renewal deal 2, with the active relationship. -/
def dbC4r : DB :=
  { merchants := [⟨1⟩], principals := [], offers := [],
    deals := [{ dealA with status := "renewed" },
              { dealA with id := 2, deal_number := "MCA-2025-0002",
                           is_renewal := true }],
    payments := [], renewal_infos := [],
    junctions := [],
    relationships := [{ id := 1, old_deal_id := 1, new_deal_id := 2,
                        renewal_info_id := 1, status := "active",
                        is_deleted := false }] }

/-- Plain ownership sum of a merchant's principals over a principal table
(the quantity §4.6 bounds by 100). -/
def ownTotal (l : List Principal) (m : Nat) : Rat :=
  ((l.filter (fun p => p.merchant_id == m)).map
    (fun p => p.ownership_percentage.getD 0)).sum

/-- Contribution of one principal row to a merchant's ownership sum. -/
def ownContrib (p : Principal) (m : Nat) : Rat :=
  if p.merchant_id == m then p.ownership_percentage.getD 0 else 0

/-- Ownership sum excluding the principal with the given id (the
`exclude_principal_id` variant of the source's query). -/
def exclTotal (l : List Principal) (m pid : Nat) : Rat :=
  (((l.filter (fun p => p.merchant_id == m)).filter
      (fun p => p.id != pid)).map (fun p => p.ownership_percentage.getD 0)).sum

/-- Principal fixture: 60 percent of merchant 1. -/
def principal60 : Principal :=
  { id := 1, merchant_id := 1, first_name := "Ana", last_name := "Lee",
    ownership_percentage := some 60, ssn := none,
    is_primary_contact := true, is_guarantor := true }

/-- Store for the C5 witness: merchant 1 with one principal at 60 percent. -/
def dbC5 : DB :=
  { merchants := [⟨1⟩], principals := [principal60], offers := [], deals := [],
    payments := [], renewal_infos := [], junctions := [], relationships := [] }

/-- Principal-creation request that would push merchant 1 to 101 percent. -/
def pC5over : PrincipalCreate :=
  { merchant_id := 1, first_name := "Bo", last_name := "Kim",
    ownership_percentage := some 41 }

/-- Patch raising principal 1 to 101 percent. -/
def pC5updOver : PrincipalUpdate := { ownership_percentage := some (some 101) }

/-! ### Theorems -/

/-- C1: the claim says every create / soft-delete / restore of a Payment
triggers Deal balance recomputation so that the §4.3 derivation holds
immediately afterwards.  On the code, `create_payment` performs no
recomputation at all: after recording a payment of 100 against a deal whose
ledger sums to 100, the deal row is bit-for-bit unchanged with
`total_paid = 0 ≠ 100`; and `delete_payment` / `restore_payment` raise
`AttributeError` (the Payment model has no `is_deleted` column), so they
never complete at all. -/
theorem c1_payment_ops_do_not_recompute_balance :
    (((create_payment dbC1 payC1).1.payments.filter
        (fun p => p.deal_id == 1 && p.bounced == false)).map (·.amount)).sum = 100 ∧
    (create_payment dbC1 payC1).1.deals = [dealA] ∧
    dealA.total_paid = 0 ∧
    delete_payment (create_payment dbC1 payC1).1 1 none =
      .error (.attributeError "type object Payment has no attribute is_deleted") ∧
    restore_payment (create_payment dbC1 payC1).1 1 =
      .error (.attributeError "type object Payment has no attribute is_deleted") := by
  refine ⟨?_, rfl, rfl, rfl, rfl⟩
  norm_num [create_payment, dbC1, payC1, freshId]

/-- C2: the claim says `update_deal_balance` counts exactly the payments
that are neither bounced nor soft-deleted, so that after soft-deleting a
counted payment and recomputing, its amount disappears from `total_paid`.
On the code the soft-delete itself is impossible — `delete_payment` raises
`AttributeError` because the Payment model defines no `is_deleted` column —
and `update_deal_balance` filters only on `bounced`, with no deleted-filter,
so recomputation keeps `total_paid = 100` with the payment still counted. -/
theorem c2_update_deal_balance_has_no_deleted_filter :
    delete_payment dbC2 1 (some "admin") =
      .error (.attributeError "type object Payment has no attribute is_deleted") ∧
    ((update_deal_balance dbC2 1 20).2.map (·.total_paid)) = some 100 := by
  refine ⟨rfl, ?_⟩
  norm_num [update_deal_balance, dbC2, dealA, updateFirst]

/-- C8: the claim says a Deal whose `actual_completion_date` is already set
keeps it unchanged through any later balance recomputation or
completed-status update.  `update_deal` indeed preserves it, but
`update_deal_balance` overwrites it unconditionally whenever
`balance_remaining ≤ 0`: recomputing on day 10 a deal completed on day 5
moves its completion date to day 10. -/
theorem c8_update_deal_balance_overwrites_completion_date :
    ((update_deal_balance dbC8 1 10).2.map (·.actual_completion_date)) =
      some (some 10) ∧
    ((update_deal dbC8 1 { status := some "completed" } 10).2.map
      (·.actual_completion_date)) = some (some 5) ∧
    dealC8.actual_completion_date = some 5 := by
  refine ⟨?_, ?_, rfl⟩
  · norm_num [update_deal_balance, dbC8, dealC8, dealA, updateFirst]
  · norm_num [update_deal, dbC8, dealC8, dealA, updateFirst]

/-- C3: the claim says that with payment_amount supplied and positive and
number_of_periods absent, `calculate_offer_fields` derives
`number_of_periods = floor(rtr / payment_amount)`, so 651 over rtr 65000
yields 99.  On the code the division on line 42 is Python **true** division:
at payment_amount 651 it stores the non-integer 65000/651 (≈ 99.85), not
the floor 99, refuting the claim at the very input it names. -/
theorem c3_counterexample_no_floor_at_651 :
    (calculate_offer_fields (offerDataC3 651)).number_of_periods =
      some (65000 / 651) ∧
    ((65000 : Rat) / 651) ≠ 99 ∧ ⌊(65000 : Rat) / 651⌋ = 99 := by
  refine ⟨?_, by norm_num, ?_⟩
  · norm_num [calculate_offer_fields, offerDataC3, truthyQ]
  · rw [Int.floor_eq_iff]
    norm_num

/-- C3 (amended): whenever payment_amount is supplied and positive and
number_of_periods is absent, the derived number_of_periods is the exact
(true-division) quotient `rtr / payment_amount` — not its floor.  At an
exact boundary (650 over 65000) this still gives the integer 100, but at a
non-exact boundary the result is the fractional quotient. -/
theorem c3_number_of_periods_true_division (d : OfferData) (p : Rat)
    (hnp : d.number_of_periods = none) (hpa : d.payment_amount = some p)
    (hp : 0 < p) :
    (calculate_offer_fields d).number_of_periods =
      some (d.advance * d.factor / p) := by
  simp [calculate_offer_fields, hnp, hpa, truthyQ, hp.ne', hp]

/-- C3 witness: at advance 50000, factor 1.3, payment_amount 650 the derived
number_of_periods is 100, by the amended theorem. -/
theorem c3_witness_650_yields_100 :
    (calculate_offer_fields (offerDataC3 650)).number_of_periods = some 100 := by
  have h := c3_number_of_periods_true_division (offerDataC3 650) 650 rfl rfl
    (by norm_num)
  rw [h]
  norm_num [offerDataC3]

/-- Ownership sum of a cons cell. -/
theorem ownTotal_cons (x : Principal) (l : List Principal) (m : Nat) :
    ownTotal (x :: l) m = ownContrib x m + ownTotal l m := by
  by_cases h : x.merchant_id == m <;>
    simp [ownTotal, ownContrib, List.filter_cons, h]

/-- Ownership sum of an append. -/
theorem ownTotal_append (l1 l2 : List Principal) (m : Nat) :
    ownTotal (l1 ++ l2) m = ownTotal l1 m + ownTotal l2 m := by
  simp [ownTotal, List.filter_append]

/-- A pointwise rewrite of rows that preserves merchant and percentage
preserves every merchant's ownership sum. -/
theorem ownTotal_map_pres (l : List Principal) (f : Principal → Principal)
    (hm : ∀ p, (f p).merchant_id = p.merchant_id)
    (ho : ∀ p, (f p).ownership_percentage = p.ownership_percentage) (m : Nat) :
    ownTotal (l.map f) m = ownTotal l m := by
  induction l with
  | nil => rfl
  | cons x xs ih =>
    rw [List.map_cons, ownTotal_cons, ownTotal_cons, ih]
    unfold ownContrib
    rw [hm x, ho x]

/-- Excluded ownership sum of a cons cell. -/
theorem exclTotal_cons (x : Principal) (l : List Principal) (m pid : Nat) :
    exclTotal (x :: l) m pid =
      (if x.merchant_id == m && x.id != pid
        then x.ownership_percentage.getD 0 else 0) + exclTotal l m pid := by
  by_cases h1 : x.merchant_id == m <;> by_cases h2 : x.id != pid <;>
    simp [exclTotal, List.filter_cons, h1, h2]

/-- A pointwise rewrite of rows that preserves id, merchant and percentage
preserves every excluded ownership sum. -/
theorem exclTotal_map_pres (l : List Principal) (f : Principal → Principal)
    (hm : ∀ p, (f p).merchant_id = p.merchant_id)
    (ho : ∀ p, (f p).ownership_percentage = p.ownership_percentage)
    (hi : ∀ p, (f p).id = p.id) (m pid : Nat) :
    exclTotal (l.map f) m pid = exclTotal l m pid := by
  induction l with
  | nil => rfl
  | cons x xs ih =>
    rw [List.map_cons, exclTotal_cons, exclTotal_cons, ih]
    rw [hm x, ho x, hi x]

/-- When no row of the merchant carries the excluded id, the excluded sum
is the plain sum. -/
theorem exclTotal_eq_ownTotal_of (l : List Principal) (m pid : Nat)
    (h : ∀ p ∈ l, p.merchant_id = m → p.id ≠ pid) :
    exclTotal l m pid = ownTotal l m := by
  induction l with
  | nil => rfl
  | cons x xs ih =>
    rw [exclTotal_cons, ownTotal_cons,
      ih (fun p hp => h p (List.mem_cons_of_mem x hp))]
    unfold ownContrib
    by_cases h1 : x.merchant_id == m
    · have hne : x.id ≠ pid := h x (List.mem_cons_self x xs) (by simpa using h1)
      simp [h1, hne]
    · simp [h1]

/-- With globally distinct ids, the row returned by `find?` on an id is the
only row carrying that id. -/
theorem find?_id_nodup_unique (l : List Principal) (pid : Nat) (dbp : Principal)
    (hf : l.find? (fun p => p.id == pid) = some dbp)
    (hnd : (l.map (·.id)).Nodup) :
    ∀ p ∈ l, p.id = pid → p = dbp := by
  induction l with
  | nil => simp at hf
  | cons x xs ih =>
    intro p hp hpid
    by_cases hx : x.id == pid
    · simp only [List.find?_cons, hx] at hf
      obtain rfl : x = dbp := by simpa using hf
      rcases List.mem_cons.mp hp with rfl | hp'
      · rfl
      · exfalso
        have hxpid : x.id = pid := by simpa using hx
        have : p.id ∈ xs.map (·.id) := List.mem_map_of_mem _ hp'
        rw [hpid, ← hxpid] at this
        exact (List.nodup_cons.mp (by simpa using hnd)).1 this
    · rw [Bool.not_eq_true] at hx
      simp only [List.find?_cons, hx] at hf
      rcases List.mem_cons.mp hp with rfl | hp'
      · exact absurd (by simpa using hpid) (by simpa using hx)
      · exact ih hf (List.nodup_cons.mp (by simpa using hnd)).2 p hp' hpid

/-- `find?` on ids commutes with an id-preserving pointwise rewrite. -/
theorem find?_map_of_id_pres (l : List Principal) (f : Principal → Principal)
    (hi : ∀ p, (f p).id = p.id) (pid : Nat) (dbp : Principal)
    (hf : l.find? (fun p => p.id == pid) = some dbp) :
    (l.map f).find? (fun p => p.id == pid) = some (f dbp) := by
  induction l with
  | nil => simp at hf
  | cons x xs ih =>
    by_cases hx : x.id == pid
    · simp only [List.find?_cons, hx] at hf
      obtain rfl : x = dbp := by simpa using hf
      have hfx : ((f x).id == pid) = true := by simpa [hi] using hx
      simp only [List.map_cons, List.find?_cons, hfx]
    · rw [Bool.not_eq_true] at hx
      simp only [List.find?_cons, hx] at hf
      have hfx : ((f x).id == pid) = false := by simpa [hi] using hx
      simp only [List.map_cons, List.find?_cons, hfx]
      exact ih hf

/-- An id-preserving pointwise rewrite preserves the id column. -/
theorem map_ids_of_id_pres (l : List Principal) (f : Principal → Principal)
    (hi : ∀ p, (f p).id = p.id) :
    (l.map f).map (·.id) = l.map (·.id) := by
  induction l with
  | nil => rfl
  | cons x xs ih => simp [ih, hi]

/-- Decomposition of a merchant's ownership sum at the row found by id. -/
theorem ownTotal_split (l : List Principal) (m pid : Nat) (dbp : Principal)
    (hnd : (l.map (·.id)).Nodup)
    (hf : l.find? (fun p => p.id == pid) = some dbp) :
    ownTotal l m = exclTotal l m pid + ownContrib dbp m := by
  induction l with
  | nil => simp at hf
  | cons x xs ih =>
    have hnd' : (xs.map (·.id)).Nodup := (List.nodup_cons.mp (by simpa using hnd)).2
    by_cases hx : x.id == pid
    · simp only [List.find?_cons, hx] at hf
      obtain rfl : x = dbp := by simpa using hf
      have hxs : ∀ p ∈ xs, p.merchant_id = m → p.id ≠ pid := by
        intro p hp _ hpe
        have : p.id ∈ xs.map (·.id) := List.mem_map_of_mem _ hp
        rw [hpe, ← show x.id = pid by simpa using hx] at this
        exact (List.nodup_cons.mp (by simpa using hnd)).1 this
      rw [ownTotal_cons, exclTotal_cons, exclTotal_eq_ownTotal_of xs m pid hxs]
      have hb : (x.id != pid) = false := by
        simp only [bne_eq_false_iff_eq]
        simpa using hx
      rw [hb]
      simp [ownContrib]
      ring
    · rw [Bool.not_eq_true] at hx
      simp only [List.find?_cons, hx] at hf
      rw [ownTotal_cons, exclTotal_cons, ih hnd' hf]
      have : (x.id != pid) = true := by simpa using hx
      rw [this]
      unfold ownContrib
      by_cases h1 : x.merchant_id == m <;> (simp [h1]; try ring)

/-- Ownership sum after replacing the row found by id. -/
theorem ownTotal_updateFirst (l : List Principal) (m pid : Nat)
    (dbp p' : Principal) (hnd : (l.map (·.id)).Nodup)
    (hf : l.find? (fun p => p.id == pid) = some dbp) :
    ownTotal (updateFirst (fun p => p.id == pid) (fun _ => p') l) m =
      exclTotal l m pid + ownContrib p' m := by
  induction l with
  | nil => simp at hf
  | cons x xs ih =>
    have hnd' : (xs.map (·.id)).Nodup := (List.nodup_cons.mp (by simpa using hnd)).2
    by_cases hx : x.id == pid
    · simp only [List.find?_cons, hx] at hf
      obtain rfl : x = dbp := by simpa using hf
      have hxs : ∀ p ∈ xs, p.merchant_id = m → p.id ≠ pid := by
        intro p hp _ hpe
        have : p.id ∈ xs.map (·.id) := List.mem_map_of_mem _ hp
        rw [hpe, ← show x.id = pid by simpa using hx] at this
        exact (List.nodup_cons.mp (by simpa using hnd)).1 this
      rw [show updateFirst (fun p => p.id == pid) (fun _ => p') (x :: xs) =
            p' :: xs by simp [updateFirst, hx]]
      rw [ownTotal_cons, exclTotal_cons, exclTotal_eq_ownTotal_of xs m pid hxs]
      have hb : (x.id != pid) = false := by
        simp only [bne_eq_false_iff_eq]
        simpa using hx
      rw [hb]
      simp
      ring
    · rw [Bool.not_eq_true] at hx
      simp only [List.find?_cons, hx] at hf
      rw [show updateFirst (fun p => p.id == pid) (fun _ => p') (x :: xs) =
            x :: updateFirst (fun p => p.id == pid) (fun _ => p') xs by
          simp [updateFirst, hx]]
      rw [ownTotal_cons, exclTotal_cons, ih hnd' hf]
      have : (x.id != pid) = true := by simpa using hx
      rw [this]
      unfold ownContrib
      by_cases h1 : x.merchant_id == m <;> (simp [h1]; try ring)

/-- The source's total with no exclusion is the plain ownership sum. -/
theorem calcOwn_none (db : DB) (m : Nat) :
    calculate_total_ownership db m none = ownTotal db.principals m := by
  simp [calculate_total_ownership, ownTotal, truthyNat]

/-- The source's total with a nonzero exclusion id is the excluded sum. -/
theorem calcOwn_some (db : DB) (m pid : Nat) (h : pid ≠ 0) :
    calculate_total_ownership db m (some pid) = exclTotal db.principals m pid := by
  simp [calculate_total_ownership, exclTotal, truthyNat, h]

/-- Ownership sum after replacing the found row inside a flip-mapped table. -/
theorem ownTotal_updateFirst_map (l : List Principal) (m pid : Nat)
    (dbp p' : Principal) (f : Principal → Principal)
    (hm : ∀ q, (f q).merchant_id = q.merchant_id)
    (ho : ∀ q, (f q).ownership_percentage = q.ownership_percentage)
    (hi : ∀ q, (f q).id = q.id)
    (hnd : (l.map (·.id)).Nodup)
    (hf : l.find? (fun p => p.id == pid) = some dbp) :
    ownTotal (updateFirst (fun p => p.id == pid) (fun _ => p') (l.map f)) m =
      exclTotal l m pid + ownContrib p' m := by
  rw [ownTotal_updateFirst (l.map f) m pid (f dbp) p'
      (by rw [map_ids_of_id_pres l f hi]; exact hnd)
      (find?_map_of_id_pres l f hi pid dbp hf),
    exclTotal_map_pres l f hm ho hi]

/-- Replacing the first match by an `f` that keeps `p`-satisfaction finds
image of the old row under `f`. -/
theorem find?_updateFirst_same (p : α → Bool) (f : α → α) (l : List α)
    (hp : ∀ x, p (f x) = p x) :
    (updateFirst p f l).find? p = (l.find? p).map f := by
  induction l with
  | nil => rfl
  | cons x xs ih =>
    by_cases hx : p x
    · simp [updateFirst, hx, List.find?_cons, hp x]
    · have hx' : p x = false := by simpa using hx
      simp [updateFirst, hx', List.find?_cons, ih]

/-- Replacing first `p`-match does not disturb a `q`-search when `p`-rows
never satisfy `q`, before or after the rewrite. -/
theorem find?_updateFirst_other (q p : α → Bool) (f : α → α) (l : List α)
    (h : ∀ x, p x = true → q x = false ∧ q (f x) = false) :
    (updateFirst p f l).find? q = l.find? q := by
  induction l with
  | nil => rfl
  | cons x xs ih =>
    by_cases hx : p x
    · obtain ⟨h1, h2⟩ := h x hx
      simp [updateFirst, hx, List.find?_cons, h1, h2]
    · have hx' : p x = false := by simpa using hx
      by_cases hq : q x
      · simp [updateFirst, hx', List.find?_cons, hq]
      · have hq' : q x = false := by simpa using hq
        simp [updateFirst, hx', List.find?_cons, hq', ih]

/-- Every member is at most the running maximum. -/
theorem le_foldr_max (a : Nat) (l : List Nat) (h : a ∈ l) :
    a ≤ l.foldr max 0 := by
  induction l with
  | nil => simp at h
  | cons x xs ih =>
    rcases List.mem_cons.mp h with rfl | h'
    · exact Nat.le_max_left _ _
    · exact le_trans (ih h') (Nat.le_max_right _ _)

/-- The autoincrement id is fresh. -/
theorem freshId_not_mem (l : List Nat) : freshId l ∉ l := by
  intro h
  have := le_foldr_max _ l h
  simp [freshId] at this

/-- `find?` skips a prefix on which the predicate is everywhere false. -/
theorem find?_append_right (p : α → Bool) (l1 l2 : List α)
    (h : ∀ x ∈ l1, p x = false) :
    (l1 ++ l2).find? p = l2.find? p := by
  rw [List.find?_append]
  rw [List.find?_eq_none.mpr]
  · rfl
  · intro x hx
    simp [h x hx]

/-- The deals component of the renewal loop depends only on the deals
accumulator. -/
theorem foldl_renewalStep_deals (entries : List RenewalDealInfo) (nid : Nat) :
    ∀ acc : List RenewalInfo × List DealRenewalJunction ×
        List DealRenewalRelationship × List Deal,
      (entries.foldl (renewalStep nid) acc).2.2.2 =
        entries.foldl renewalDealsStep acc.2.2.2 := by
  induction entries with
  | nil => intro acc; rfl
  | cons e es ih =>
    intro acc
    obtain ⟨a, b, c, d⟩ := acc
    rw [List.foldl_cons, List.foldl_cons, ih]
    rfl

/-- An id-preserving rewrite of the first match preserves the id column. -/
theorem updateFirst_deal_ids (p : Deal → Bool) (f : Deal → Deal)
    (hf : ∀ x, (f x).id = x.id) :
    ∀ l : List Deal, (updateFirst p f l).map (·.id) = l.map (·.id) := by
  intro l
  induction l with
  | nil => rfl
  | cons x xs ih =>
    by_cases hx : p x
    · simp [updateFirst, hx, hf]
    · have hx' : p x = false := by simpa using hx
      simp only [updateFirst, hx', Bool.false_eq_true, if_false,
        List.map_cons, List.cons.injEq, true_and]
      exact ih

/-- The status flip preserves the id column. -/
theorem renewalDealsStep_ids (ds : List Deal) (odi : RenewalDealInfo) :
    (renewalDealsStep ds odi).map (·.id) = ds.map (·.id) := by
  unfold renewalDealsStep
  split
  · exact updateFirst_deal_ids (fun d => d.id == odi.old_deal_id)
      (fun d => { d with status := "renewed" }) (fun x => rfl) ds
  · rfl

/-- Whether a deal id is present depends only on the id column. -/
theorem lookup_isSome_eq_contains (l : List Deal) (i : Nat) :
    (l.find? (fun d => d.id == i)).isSome = (l.map (·.id)).contains i := by
  induction l with
  | nil => rfl
  | cons x xs ih =>
    by_cases hx : x.id == i
    · have he : x.id = i := by simpa using hx
      simp [List.find?_cons, hx, List.contains_cons, he]
    · have hx' : (x.id == i) = false := by simpa using hx
      have he : ¬ i = x.id := fun h => by simp [h] at hx'
      simp [List.find?_cons, hx', List.contains_cons, ih, he]

/-- Ids after the whole renewal loop. -/
theorem foldl_renewalDealsStep_ids (entries : List RenewalDealInfo) :
    ∀ ds : List Deal,
      (entries.foldl renewalDealsStep ds).map (·.id) = ds.map (·.id) := by
  induction entries with
  | nil => intro ds; rfl
  | cons e es ih =>
    intro ds
    rw [List.foldl_cons, ih, renewalDealsStep_ids]

/-- A lookup on any other id is unchanged by the status flip. -/
theorem renewalDealsStep_lookup_ne (ds : List Deal) (odi : RenewalDealInfo)
    (i : Nat) (h : i ≠ odi.old_deal_id) :
    (renewalDealsStep ds odi).find? (fun d => d.id == i) =
      ds.find? (fun d => d.id == i) := by
  unfold renewalDealsStep
  split
  · apply find?_updateFirst_other
    intro x hx
    have hxe : x.id = odi.old_deal_id := by simpa using hx
    constructor <;> simp [hxe] <;> exact fun he => h he.symm
  · rfl

/-- After the status flip the targeted deal reads `"renewed"`. -/
theorem renewalDealsStep_renewed_self (ds : List Deal) (odi : RenewalDealInfo)
    (h : (ds.find? (fun d => d.id == odi.old_deal_id)).isSome = true) :
    ∃ d, (renewalDealsStep ds odi).find? (fun d => d.id == odi.old_deal_id) =
      some d ∧ d.status = "renewed" := by
  unfold renewalDealsStep
  rw [if_pos h]
  obtain ⟨d0, hd0⟩ := Option.isSome_iff_exists.mp h
  rw [find?_updateFirst_same (fun d => d.id == odi.old_deal_id)
    (fun d => { d with status := "renewed" }) ds (fun x => rfl), hd0]
  exact ⟨_, rfl, rfl⟩

/-- The status flip never un-renews a deal. -/
theorem renewalDealsStep_preserves_renewed (ds : List Deal)
    (odi : RenewalDealInfo) (i : Nat)
    (h : ∃ d, ds.find? (fun d => d.id == i) = some d ∧ d.status = "renewed") :
    ∃ d, (renewalDealsStep ds odi).find? (fun d => d.id == i) = some d ∧
      d.status = "renewed" := by
  by_cases he : i = odi.old_deal_id
  · subst he
    obtain ⟨d0, hd0, _⟩ := h
    exact renewalDealsStep_renewed_self ds odi (by simp [hd0])
  · rw [renewalDealsStep_lookup_ne ds odi i he]
    exact h

/-- The whole loop never un-renews a deal. -/
theorem foldl_renewalDealsStep_preserves_renewed
    (entries : List RenewalDealInfo) :
    ∀ (ds : List Deal) (i : Nat),
      (∃ d, ds.find? (fun d => d.id == i) = some d ∧ d.status = "renewed") →
      ∃ d, (entries.foldl renewalDealsStep ds).find? (fun d => d.id == i) =
        some d ∧ d.status = "renewed" := by
  induction entries with
  | nil => intro ds i h; exact h
  | cons e es ih =>
    intro ds i h
    rw [List.foldl_cons]
    exact ih _ i (renewalDealsStep_preserves_renewed ds e i h)

/-- After the loop, every listed old deal present in the table reads
`"renewed"`. -/
theorem foldl_renewalDealsStep_renewed (entries : List RenewalDealInfo) :
    ∀ ds : List Deal,
      (∀ e ∈ entries,
        (ds.find? (fun d => d.id == e.old_deal_id)).isSome = true) →
      ∀ e ∈ entries,
        ∃ d, (entries.foldl renewalDealsStep ds).find?
          (fun d => d.id == e.old_deal_id) = some d ∧ d.status = "renewed" := by
  induction entries with
  | nil => intro ds _ e he; simp at he
  | cons e0 es ih =>
    intro ds hex e he
    rw [List.foldl_cons]
    rcases List.mem_cons.mp he with rfl | he'
    · exact foldl_renewalDealsStep_preserves_renewed es _ _
        (renewalDealsStep_renewed_self ds e (hex e (List.mem_cons_self _ _)))
    · refine ih (renewalDealsStep ds e0) ?_ e he'
      intro e2 he2
      have h2 := hex e2 (List.mem_cons_of_mem e0 he2)
      rw [lookup_isSome_eq_contains] at h2 ⊢
      rw [renewalDealsStep_ids]
      exact h2

/-- A lookup on an id listed by no loop entry is unchanged by the loop. -/
theorem foldl_renewalDealsStep_lookup_ne (entries : List RenewalDealInfo) :
    ∀ (ds : List Deal) (i : Nat), (∀ e ∈ entries, i ≠ e.old_deal_id) →
      (entries.foldl renewalDealsStep ds).find? (fun d => d.id == i) =
        ds.find? (fun d => d.id == i) := by
  induction entries with
  | nil => intro ds i _; rfl
  | cons e es ih =>
    intro ds i h
    rw [List.foldl_cons, ih _ i (fun e2 he2 => h e2 (List.mem_cons_of_mem e he2)),
      renewalDealsStep_lookup_ne ds e i (h e (List.mem_cons_self e es))]

/-- A decimal digit character is a digit. -/
theorem digitChar_isDigit (d : Nat) (h : d < 10) :
    (digitChar d).isDigit = true := by
  interval_cases d <;> decide

/-- A decimal digit character is not a dash. -/
theorem digitChar_ne_dash (d : Nat) (h : d < 10) : digitChar d ≠ '-' := by
  interval_cases d <;> decide

/-- Reading a decimal digit character back. -/
theorem digitChar_toNat (d : Nat) (h : d < 10) :
    (digitChar d).toNat - 48 = d := by
  interval_cases d <;> decide

/-- Every character produced by the fuelled rendering is a non-dash digit. -/
theorem natCharsAux_mem (fuel : Nat) :
    ∀ n, n ≤ fuel → ∀ c ∈ natCharsAux fuel n,
      c.isDigit = true ∧ c ≠ '-' := by
  induction fuel with
  | zero => intro n _ c hc; simp [natCharsAux] at hc
  | succ fuel ih =>
    intro n hn c hc
    match n with
    | 0 => simp [natCharsAux] at hc
    | m + 1 =>
      simp only [natCharsAux, List.mem_append, List.mem_singleton] at hc
      rcases hc with hc | rfl
      · have hq : (m + 1) / 10 ≤ fuel :=
          le_trans (Nat.le_of_lt_succ (Nat.div_lt_self (Nat.succ_pos m)
            (by norm_num))) (Nat.le_of_succ_le_succ hn)
        exact ih _ hq c hc
      · exact ⟨digitChar_isDigit _ (Nat.mod_lt _ (by norm_num)),
          digitChar_ne_dash _ (Nat.mod_lt _ (by norm_num))⟩

/-- Every character of `str(n)` is a non-dash digit. -/
theorem natChars_mem (n : Nat) :
    ∀ c ∈ natChars n, c.isDigit = true ∧ c ≠ '-' := by
  intro c hc
  unfold natChars at hc
  by_cases h0 : n = 0
  · simp [h0] at hc
    subst hc
    decide
  · rw [if_neg h0] at hc
    exact natCharsAux_mem n n le_rfl c hc

/-- Horner evaluation of the fuelled rendering. -/
theorem foldl_natCharsAux (fuel : Nat) :
    ∀ n a, n ≤ fuel →
      (natCharsAux fuel n).foldl (fun a c => 10 * a + (c.toNat - 48)) a =
        a * 10 ^ (natCharsAux fuel n).length + n := by
  induction fuel with
  | zero =>
    intro n a hn
    interval_cases n
    simp [natCharsAux]
  | succ fuel ih =>
    intro n a hn
    match n with
    | 0 => simp [natCharsAux]
    | m + 1 =>
      have hq : (m + 1) / 10 ≤ fuel :=
        le_trans (Nat.le_of_lt_succ (Nat.div_lt_self (Nat.succ_pos m)
          (by norm_num))) (Nat.le_of_succ_le_succ hn)
      rw [natCharsAux, List.foldl_append, ih _ a hq]
      simp only [List.foldl_cons, List.foldl_nil, List.length_append,
        List.length_cons, List.length_nil]
      rw [digitChar_toNat _ (Nat.mod_lt _ (by norm_num))]
      have := Nat.div_add_mod (m + 1) 10
      ring_nf
      omega

/-- Leading zeros do not change a zero accumulator. -/
theorem foldl_zeros (k : Nat) :
    (List.replicate k '0').foldl (fun a c => 10 * a + (c.toNat - 48)) 0 = 0 := by
  induction k with
  | zero => rfl
  | succ k ih => simpa [List.replicate_succ] using ih

/-- Parsing the zero-padded decimal rendering recovers the number. -/
theorem pyInt?_pad4_natChars (n : Nat) :
    pyInt? (pad4 (natChars n)) = some n := by
  have hne : natChars n ≠ [] := by
    unfold natChars
    by_cases h0 : n = 0
    · simp [h0]
    · rw [if_neg h0]
      match n, h0 with
      | m + 1, _ => simp [natCharsAux]
  have hdig : ∀ c ∈ pad4 (natChars n), c.isDigit = true := by
    intro c hc
    unfold pad4 at hc
    rcases List.mem_append.mp hc with hc | hc
    · have : c = '0' := List.eq_of_mem_replicate hc
      simp [this]
    · exact (natChars_mem n c hc).1
  have hpadne : pad4 (natChars n) ≠ [] := by
    unfold pad4
    intro h
    exact hne (List.append_eq_nil.mp h).2
  unfold pyInt?
  rw [if_pos ⟨hpadne, List.all_eq_true.mpr (fun c hc => hdig c hc)⟩]
  congr 1
  unfold pad4
  rw [List.foldl_append, foldl_zeros]
  unfold natChars
  by_cases h0 : n = 0
  · simp [h0]
  · rw [if_neg h0]
    rw [foldl_natCharsAux n n 0 le_rfl]
    simp

/-- `split('-')[-1]` of a string ending in a dash-free suffix. -/
theorem afterLastDash_append (a b : List Char) (h : ∀ c ∈ b, c ≠ '-') :
    afterLastDash (a ++ '-' :: b) = b := by
  unfold afterLastDash
  have h1 : (a ++ '-' :: b).reverse = b.reverse ++ '-' :: a.reverse := by
    simp
  rw [h1]
  have h2 : ∀ l : List Char, (∀ c ∈ l, c ≠ '-') →
      (l ++ '-' :: a.reverse).takeWhile (fun c => c != '-') = l := by
    intro l hl
    induction l with
    | nil => simp [List.takeWhile_cons]
    | cons x xs ih =>
      have hx : (x != '-') = true := by
        simpa using hl x (List.mem_cons_self x xs)
      simp only [List.cons_append, List.takeWhile_cons, hx, if_true]
      rw [ih (fun c hc => hl c (List.mem_cons_of_mem x hc))]
  rw [h2 b.reverse (fun c hc => h c (List.mem_reverse.mp hc))]
  simp

/-- Parsing the trailing sequence of a rendered deal number. -/
theorem parse_renderDealNumber (y n : Nat) :
    pyInt? (afterLastDash (renderDealNumber y n).data) = some n := by
  have hdata : (renderDealNumber y n).data =
      ("MCA-".data ++ natChars y) ++ '-' :: pad4 (natChars n) := by
    simp [renderDealNumber]
  rw [hdata, afterLastDash_append, pyInt?_pad4_natChars]
  intro c hc
  unfold pad4 at hc
  rcases List.mem_append.mp hc with hc | hc
  · have : c = '0' := List.eq_of_mem_replicate hc
    simp [this]
  · exact (natChars_mem n c hc).2

/-- The parsed sequence value of a rendered deal number. -/
theorem seqD_renderDealNumber (y n : Nat) :
    seqD (renderDealNumber y n) = n := by
  simp [seqD, parse_renderDealNumber]

/-- A rendered deal number matches its year's LIKE pattern. -/
theorem renderDealNumber_pfx (y n : Nat) :
    (yearPat y).isPrefixOf (renderDealNumber y n).data = true := by
  have hdata : (renderDealNumber y n).data =
      yearPat y ++ pad4 (natChars n) := by
    simp [renderDealNumber, yearPat]
  rw [hdata, List.isPrefixOf_iff_prefix]
  exact List.prefix_append _ _

/-- The row produced by the running id-maximum fold is a member. -/
theorem lastById_aux_mem (l : List Deal) :
    ∀ (acc : Option Deal) (a : Deal),
      l.foldl (fun acc d =>
        match acc with
        | none => some d
        | some x => if x.id < d.id then some d else some x) acc = some a →
      a ∈ l ∨ acc = some a := by
  induction l with
  | nil => intro acc a h; exact Or.inr h
  | cons x xs ih =>
    intro acc a h
    rw [List.foldl_cons] at h
    rcases ih _ a h with hmem | hacc
    · exact Or.inl (List.mem_cons_of_mem _ hmem)
    · cases acc with
      | none =>
        have : x = a := by simpa using hacc
        exact Or.inl (this ▸ List.mem_cons_self x xs)
      | some b =>
        dsimp only at hacc
        by_cases hlt : b.id < x.id
        · rw [if_pos hlt] at hacc
          have : x = a := by simpa using hacc
          exact Or.inl (this ▸ List.mem_cons_self x xs)
        · rw [if_neg hlt] at hacc
          exact Or.inr hacc

/-- The greatest-id row is a member. -/
theorem lastById_mem (l : List Deal) (a : Deal) (h : lastById l = some a) :
    a ∈ l := by
  rcases lastById_aux_mem l none a h with hm | hc
  · exact hm
  · simp at hc

/-- The fold never forgets a non-empty accumulator. -/
theorem lastById_aux_isSome (l : List Deal) :
    ∀ b : Deal,
      (l.foldl (fun acc d =>
        match acc with
        | none => some d
        | some x => if x.id < d.id then some d else some x)
          (some b)).isSome = true := by
  induction l with
  | nil => intro b; rfl
  | cons x xs ih =>
    intro b
    rw [List.foldl_cons]
    by_cases hlt : b.id < x.id
    · simpa [hlt] using ih x
    · simpa [hlt] using ih b

/-- Only the empty table has no greatest-id row. -/
theorem lastById_eq_none (l : List Deal) (h : lastById l = none) : l = [] := by
  cases l with
  | nil => rfl
  | cons x xs =>
    exfalso
    have := lastById_aux_isSome xs x
    unfold lastById at h
    rw [List.foldl_cons] at h
    simp only [h] at this
    exact Bool.false_ne_true this

/-- Appending a row with a strictly greater id makes it the greatest-id
row. -/
theorem lastById_append_gt (l : List Deal) (a : Deal)
    (h : ∀ x ∈ l, x.id < a.id) : lastById (l ++ [a]) = some a := by
  unfold lastById
  rw [List.foldl_append]
  cases hres : l.foldl (fun acc d =>
      match acc with
      | none => some d
      | some x => if x.id < d.id then some d else some x) none with
  | none => rfl
  | some b =>
    have hb : b ∈ l := by
      rcases lastById_aux_mem l none b hres with hm | hc
      · exact hm
      · simp at hc
    simp [h b hb]

/-- The running maximum is bounded by any common bound. -/
theorem foldr_max_le (l : List Nat) (b : Nat) (h : ∀ x ∈ l, x ≤ b) :
    l.foldr max 0 ≤ b := by
  induction l with
  | nil => exact Nat.zero_le b
  | cons x xs ih =>
    exact max_le (h x (List.mem_cons_self x xs))
      (ih (fun z hz => h z (List.mem_cons_of_mem x hz)))

/-- Bounding the year's maximum sequence number. -/
theorem maxSeq_le (y : Nat) (deals : List Deal) (b : Nat)
    (h : ∀ d ∈ yearDeals y deals, seqD d.deal_number ≤ b) :
    maxSeq y deals ≤ b := by
  apply foldr_max_le
  intro x hx
  obtain ⟨d, hd, rfl⟩ := List.mem_map.mp hx
  exact h d hd

/-- Every year deal's sequence number is at most the maximum. -/
theorem le_maxSeq (y : Nat) (deals : List Deal) (d : Deal)
    (hd : d ∈ yearDeals y deals) : seqD d.deal_number ≤ maxSeq y deals :=
  le_foldr_max _ _ (List.mem_map_of_mem _ hd)

/-- First invariant component: year deal numbers are well formed. -/
theorem seqInv_wf (y : Nat) (deals : List Deal) (h : SeqInv y deals) :
    ∀ d ∈ yearDeals y deals, wellFormedNum y d.deal_number = true := by
  intro d hd
  unfold SeqInv seqInvCheck at h
  rw [Bool.and_eq_true] at h
  exact List.all_eq_true.mp h.1 d hd

/-- Second invariant component: the greatest-id row has the greatest
sequence number. -/
theorem seqInv_le (y : Nat) (deals : List Deal) (h : SeqInv y deals)
    (last : Deal) (hl : lastById (yearDeals y deals) = some last) :
    ∀ d ∈ yearDeals y deals,
      seqD d.deal_number ≤ seqD last.deal_number := by
  intro d hd
  unfold SeqInv seqInvCheck at h
  rw [Bool.and_eq_true] at h
  have h2 := h.2
  rw [hl] at h2
  simpa using List.all_eq_true.mp h2 d hd

/-- Under the invariant, the generator yields exactly the next sequence
number of the year, rendered and zero-padded (1 on an empty year). -/
theorem generate_eq_of_inv (y : Nat) (deals : List Deal)
    (hinv : SeqInv y deals) :
    generate_deal_number deals y =
      some (renderDealNumber y (maxSeq y deals + 1)) := by
  unfold generate_deal_number
  cases hlast : lastById (yearDeals y deals) with
  | none =>
    have hempty : yearDeals y deals = [] := lastById_eq_none _ hlast
    have hmax : maxSeq y deals = 0 := by simp [maxSeq, hempty]
    rw [hmax]
  | some last =>
    have hmem : last ∈ yearDeals y deals := lastById_mem _ _ hlast
    have hw := seqInv_wf y deals hinv last hmem
    unfold wellFormedNum at hw
    cases hp : pyInt? (afterLastDash last.deal_number.data) with
    | none => rw [hp] at hw; simp at hw
    | some k =>
      rw [hp] at hw
      have hs : last.deal_number = renderDealNumber y k := by simpa using hw
      have hk : seqD last.deal_number = k := by
        rw [hs]; exact seqD_renderDealNumber y k
      have h1 : maxSeq y deals ≤ k :=
        maxSeq_le _ _ _ (fun d hd => hk ▸ seqInv_le y deals hinv last hlast d hd)
      have h2 : k ≤ maxSeq y deals := hk ▸ le_maxSeq y deals last hmem
      dsimp only
      rw [hp, le_antisymm h1 h2]

/-- The generated number differs from every stored deal number. -/
theorem generated_fresh (y : Nat) (deals : List Deal) :
    ∀ d ∈ deals, d.deal_number ≠ renderDealNumber y (maxSeq y deals + 1) := by
  intro d hd he
  have hdy : d ∈ yearDeals y deals := List.mem_filter.mpr
    ⟨hd, by rw [he]; exact renderDealNumber_pfx y (maxSeq y deals + 1)⟩
  have h1 : seqD d.deal_number ≤ maxSeq y deals := le_maxSeq y deals d hdy
  rw [he, seqD_renderDealNumber] at h1
  omega

/-- The invariant is preserved by appending the next rendered number on a
fresh greatest id. -/
theorem seqInv_append (y : Nat) (deals : List Deal) (nd : Deal)
    (hinv : SeqInv y deals)
    (hid : ∀ x ∈ yearDeals y deals, x.id < nd.id)
    (hnum : nd.deal_number = renderDealNumber y (maxSeq y deals + 1)) :
    SeqInv y (deals ++ [nd]) := by
  have hyd : yearDeals y (deals ++ [nd]) = yearDeals y deals ++ [nd] := by
    unfold yearDeals
    rw [List.filter_append]
    congr 1
    simp [hnum, renderDealNumber_pfx]
  unfold SeqInv seqInvCheck
  rw [Bool.and_eq_true]
  constructor
  · rw [List.all_eq_true]
    intro d hd
    rw [hyd] at hd
    rcases List.mem_append.mp hd with hd | hd
    · exact seqInv_wf y deals hinv d hd
    · have : d = nd := by simpa using hd
      subst this
      rw [hnum]
      unfold wellFormedNum
      rw [parse_renderDealNumber]
      simp
  · rw [hyd, lastById_append_gt _ _ hid, List.all_eq_true]
    intro d hd
    rcases List.mem_append.mp hd with hd | hd
    · have h1 : seqD d.deal_number ≤ maxSeq y deals := le_maxSeq y deals d hd
      have h2 : seqD nd.deal_number = maxSeq y deals + 1 := by
        rw [hnum, seqD_renderDealNumber]
      simp only [decide_eq_true_eq]
      omega
    · have : d = nd := by simpa using hd
      subst this
      simp

/-- The new renewal deal keeps its assigned id. -/
theorem renewalNewDeal_id (rd : CreateRenewalDeal) (offer : Offer)
    (num : String) (nid : Nat) : (renewalNewDeal rd offer num nid).id = nid := rfl

/-- Looking up the new deal id after the renewal loop returns the new deal
row untouched, provided the id is fresh. -/
theorem renewal_loop_lookup_new (entries : List RenewalDealInfo)
    (db_deals : List Deal) (nid : Nat) (nd : Deal)
    (acc1 : List RenewalInfo) (acc2 : List DealRenewalJunction)
    (acc3 : List DealRenewalRelationship)
    (hid : nd.id = nid)
    (hfr : ∀ d ∈ db_deals, (d.id == nid) = false)
    (hne : ∀ e ∈ entries, nid ≠ e.old_deal_id) :
    ((entries.foldl (renewalStep nid)
        (acc1, acc2, acc3, db_deals ++ [nd])).2.2.2).find?
      (fun d => d.id == nid) = some nd := by
  rw [foldl_renewalStep_deals]
  dsimp only
  rw [foldl_renewalDealsStep_lookup_ne entries _ nid hne,
    find?_append_right _ _ _ hfr]
  simp [List.find?_cons, hid]

/-- C4: renewal conservation and reversal.  `create_renewal_deal` on an
existing offer and existing old deals produces a new Deal with
`is_renewal = true`, `total_transfer_balance` equal to the sum of the
listed transfer balances, and `net_cash_to_merchant =
advance − upfront_fees − total_transfer_balance`, and flips every listed
old Deal to `"renewed"`.  `reverse_renewal` on a pair with an active
relationship reports success, flips that relationship to `"reversed"`,
reverts the old Deal to `"active"` only when its status is still
`"renewed"`, and leaves the new Deal — and every deal other than the old
one — bit-for-bit unchanged. -/
theorem c4_renewal_conservation_and_reversal :
    (∀ (db : DB) (rd : CreateRenewalDeal) (y now : Nat) (offer : Offer)
        (num : String),
      db.offers.find? (fun o => o.id == rd.offer_id) = some offer →
      generate_deal_number db.deals y = some num →
      (∀ e ∈ rd.old_deals, ∃ d ∈ db.deals, d.id = e.old_deal_id) →
      ∃ (db' : DB) (newDeal : Deal),
        create_renewal_deal db rd y now = .ok (db', newDeal) ∧
        newDeal.is_renewal = true ∧
        newDeal.total_transfer_balance =
          (rd.old_deals.map (·.transfer_balance)).sum ∧
        newDeal.net_cash_to_merchant = some (offer.advance -
          offer.upfront_fees - (rd.old_deals.map (·.transfer_balance)).sum) ∧
        ∀ e ∈ rd.old_deals, ∃ d',
          db'.deals.find? (fun d => d.id == e.old_deal_id) = some d' ∧
          d'.status = "renewed") ∧
    (∀ (db : DB) (old_deal_id new_deal_id : Nat)
        (rel : DealRenewalRelationship),
      db.relationships.find? (fun r => r.old_deal_id == old_deal_id &&
        r.new_deal_id == new_deal_id && r.status == "active") = some rel →
      old_deal_id ≠ new_deal_id →
      (reverse_renewal db old_deal_id new_deal_id).2 = true ∧
      (reverse_renewal db old_deal_id new_deal_id).1.relationships =
        updateFirst (fun r => r.old_deal_id == old_deal_id &&
          r.new_deal_id == new_deal_id && r.status == "active")
          (fun r => { r with status := "reversed" }) db.relationships ∧
      ((reverse_renewal db old_deal_id new_deal_id).1.deals.find?
        (fun d => d.id == new_deal_id)) =
        db.deals.find? (fun d => d.id == new_deal_id) ∧
      (∀ i, i ≠ old_deal_id →
        ((reverse_renewal db old_deal_id new_deal_id).1.deals.find?
          (fun d => d.id == i)) = db.deals.find? (fun d => d.id == i)) ∧
      (∀ od, db.deals.find? (fun d => d.id == old_deal_id) = some od →
        od.status = "renewed" →
        ((reverse_renewal db old_deal_id new_deal_id).1.deals.find?
          (fun d => d.id == old_deal_id)) =
          some { od with status := "active" }) ∧
      (∀ od, db.deals.find? (fun d => d.id == old_deal_id) = some od →
        od.status ≠ "renewed" →
        (reverse_renewal db old_deal_id new_deal_id).1.deals = db.deals)) := by
  constructor
  · intro db rd y now offer num hoff hgen hex
    have hfr : ∀ d ∈ db.deals,
        (d.id == freshId (db.deals.map (fun x => x.id))) = false := by
      intro d hd
      have hne' : d.id ≠ freshId (db.deals.map (fun x => x.id)) := by
        intro he
        apply freshId_not_mem (db.deals.map (fun x => x.id))
        rw [← he]
        exact List.mem_map_of_mem _ hd
      simpa using hne'
    have hne : ∀ e ∈ rd.old_deals,
        freshId (db.deals.map (fun x => x.id)) ≠ e.old_deal_id := by
      intro e he heq
      obtain ⟨d, hd, hdid⟩ := hex e he
      apply freshId_not_mem (db.deals.map (fun x => x.id))
      rw [heq, ← hdid]
      exact List.mem_map_of_mem _ hd
    have hsome : ∀ (nd : Deal), ∀ e ∈ rd.old_deals,
        (((db.deals ++ [nd]).find?
          (fun d => d.id == e.old_deal_id)).isSome) = true := by
      intro nd e he
      obtain ⟨d, hd, hdid⟩ := hex e he
      have h1 : (db.deals.find? (fun dd => dd.id == e.old_deal_id)).isSome := by
        rw [List.find?_isSome]
        exact ⟨d, hd, by simp [hdid]⟩
      obtain ⟨x, hx⟩ := Option.isSome_iff_exists.mp h1
      simp [List.find?_append, hx, Option.or]
    have hlook := renewal_loop_lookup_new rd.old_deals db.deals
      (freshId (db.deals.map (fun x => x.id)))
      (renewalNewDeal rd offer num (freshId (db.deals.map (fun x => x.id))))
      db.renewal_infos db.junctions db.relationships
      (renewalNewDeal_id rd offer num _) hfr hne
    simp only [create_renewal_deal, hoff, hgen]
    refine ⟨_, _, rfl, ?_, ?_, ?_, ?_⟩
    · rw [hlook]
      rfl
    · rw [hlook]
      rfl
    · rw [hlook]
      rfl
    · intro e he
      have hst := foldl_renewalDealsStep_renewed rd.old_deals
        (db.deals ++ [renewalNewDeal rd offer num
          (freshId (db.deals.map (fun x => x.id)))])
        (hsome _) e he
      rw [foldl_renewalStep_deals]
      dsimp only
      exact hst
  · intro db old_deal_id new_deal_id rel hrel hne
    have hdeals : ∀ i, i ≠ old_deal_id →
        ((reverse_renewal db old_deal_id new_deal_id).1.deals.find?
          (fun d => d.id == i)) = db.deals.find? (fun d => d.id == i) := by
      intro i hi
      simp only [reverse_renewal, hrel]
      cases hod : db.deals.find? (fun d => d.id == old_deal_id) with
      | none => rfl
      | some od =>
        by_cases hst : od.status = "renewed"
        · simp only [hod, hst, if_true]
          apply find?_updateFirst_other
          intro x hx
          have hxe : x.id = old_deal_id := by simpa using hx
          constructor <;> simp [hxe] <;> exact fun he => hi he.symm
        · simp only [hod, hst, if_false]
    refine ⟨?_, ?_, hdeals new_deal_id (fun h => hne h.symm), hdeals, ?_, ?_⟩
    · simp only [reverse_renewal, hrel]
    · simp only [reverse_renewal, hrel]
    · intro od hod hst
      simp only [reverse_renewal, hrel, hod, hst, if_true]
      rw [find?_updateFirst_same (fun d => d.id == old_deal_id)
        (fun d => { d with status := "active" }) db.deals (fun x => rfl), hod]
      rfl
    · intro od hod hst
      simp only [reverse_renewal, hrel, hod, hst, if_false]

/-- C4 witness: renewing old deals 1 and 2 (balances 300 and 200) through
the selected offer (advance 10000, fees 500) succeeds with
total_transfer_balance 500 and net_cash 9000 and both old deals renewed;
reversing the (1, 2) relationship on the reversal store succeeds. -/
theorem c4_witness_concrete :
    (∃ (db' : DB) (newDeal : Deal),
      create_renewal_deal dbC4 renewalCreateC4 2025 9 = .ok (db', newDeal) ∧
      newDeal.is_renewal = true ∧
      newDeal.total_transfer_balance =
        (renewalCreateC4.old_deals.map (·.transfer_balance)).sum ∧
      newDeal.net_cash_to_merchant = some (offerC4.advance -
        offerC4.upfront_fees -
        (renewalCreateC4.old_deals.map (·.transfer_balance)).sum) ∧
      ∀ e ∈ renewalCreateC4.old_deals, ∃ d',
        db'.deals.find? (fun d => d.id == e.old_deal_id) = some d' ∧
        d'.status = "renewed") ∧
    (reverse_renewal dbC4r 1 2).2 = true := by
  constructor
  · exact c4_renewal_conservation_and_reversal.1 dbC4 renewalCreateC4 2025 9
      offerC4 "MCA-2025-0003" rfl rfl (by decide)
  · exact (c4_renewal_conservation_and_reversal.2 dbC4r 1 2
      { id := 1, old_deal_id := 1, new_deal_id := 2, renewal_info_id := 1,
        status := "active", is_deleted := false } rfl (by decide)).1

/-- `unsetPrimary` preserves the merchant. -/
theorem unsetPrimary_merchant (mid : Nat) (q : Principal) :
    (unsetPrimary mid q).merchant_id = q.merchant_id := by
  unfold unsetPrimary
  by_cases h : q.merchant_id == mid <;> simp [h]

/-- `unsetPrimary` preserves the percentage. -/
theorem unsetPrimary_pct (mid : Nat) (q : Principal) :
    (unsetPrimary mid q).ownership_percentage = q.ownership_percentage := by
  unfold unsetPrimary
  by_cases h : q.merchant_id == mid <;> simp [h]

/-- `unsetPrimaryExcept` preserves the merchant. -/
theorem unsetPrimaryExcept_merchant (mid pid : Nat) (q : Principal) :
    (unsetPrimaryExcept mid pid q).merchant_id = q.merchant_id := by
  unfold unsetPrimaryExcept
  by_cases h : q.merchant_id == mid && q.id != pid <;> simp [h]

/-- `unsetPrimaryExcept` preserves the percentage. -/
theorem unsetPrimaryExcept_pct (mid pid : Nat) (q : Principal) :
    (unsetPrimaryExcept mid pid q).ownership_percentage =
      q.ownership_percentage := by
  unfold unsetPrimaryExcept
  by_cases h : q.merchant_id == mid && q.id != pid <;> simp [h]

/-- `unsetPrimaryExcept` preserves the id. -/
theorem unsetPrimaryExcept_id (mid pid : Nat) (q : Principal) :
    (unsetPrimaryExcept mid pid q).id = q.id := by
  unfold unsetPrimaryExcept
  by_cases h : q.merchant_id == mid && q.id != pid <;> simp [h]

/-- Appending one row keeps a merchant's sum bounded when the base sum is
bounded and the guard on the new row's merchant held. -/
theorem ownTotal_append_single_bound (l base : List Principal) (q : Principal)
    (m : Nat) (hinv : ownTotal l m ≤ 100)
    (hguard : ownTotal l q.merchant_id + q.ownership_percentage.getD 0 ≤ 100)
    (hbase : ownTotal base m = ownTotal l m) :
    ownTotal (base ++ [q]) m ≤ 100 := by
  rw [ownTotal_append, hbase, ownTotal_cons]
  have hnil : ownTotal [] m = 0 := rfl
  rw [hnil, add_zero]
  by_cases hm : q.merchant_id == m
  · have hmm : q.merchant_id = m := by simpa using hm
    rw [← hmm]
    simpa [ownContrib] using hguard
  · simpa [ownContrib, hm] using hinv

/-- The excluded sum plus the replacement row's contribution stays bounded:
either the percentage was untouched, or the over-100 guard held. -/
theorem excl_plus_contrib_bound (l : List Principal) (m pid : Nat)
    (dbp dbp' : Principal) (hnd : (l.map (fun x => x.id)).Nodup)
    (hfind : l.find? (fun p => p.id == pid) = some dbp)
    (hmer : dbp'.merchant_id = dbp.merchant_id)
    (hinv : ∀ m', ownTotal l m' ≤ 100)
    (hcase : dbp'.ownership_percentage = dbp.ownership_percentage ∨
      exclTotal l dbp.merchant_id pid + dbp'.ownership_percentage.getD 0 ≤ 100) :
    exclTotal l m pid + ownContrib dbp' m ≤ 100 := by
  rcases hcase with hsame | hle
  · have hc : ownContrib dbp' m = ownContrib dbp m := by
      unfold ownContrib
      rw [hmer, hsame]
    rw [hc, ← ownTotal_split l m pid dbp hnd hfind]
    exact hinv m
  · by_cases hm : dbp.merchant_id == m
    · have hmm : dbp.merchant_id = m := by simpa using hm
      have hc : ownContrib dbp' m = dbp'.ownership_percentage.getD 0 := by
        unfold ownContrib
        rw [hmer]
        simp [hm]
      rw [hc, ← hmm]
      exact hle
    · have hc : ownContrib dbp' m = 0 := by
        unfold ownContrib
        rw [hmer]
        simp [hm]
      have hne : ∀ q ∈ l, q.merchant_id = m → q.id ≠ pid := by
        intro q hq hqm hqe
        have hq' := find?_id_nodup_unique l pid dbp hfind hnd q hq hqe
        subst hq'
        exact absurd (by simpa using hqm) hm
      rw [hc, exclTotal_eq_ownTotal_of l m pid hne, add_zero]
      exact hinv m

/-- Tail of the update bound: the goal shape left after rewriting the
updated table as excluded sum plus the replacement row's contribution. -/
theorem update_tail_bound (db : DB) (pid : Nat) (upd : PrincipalUpdate)
    (dbp : Principal) (m : Nat)
    (hinv : forall m', calculate_total_ownership db m' none ≤ 100)
    (hnd : (db.principals.map (fun x => x.id)).Nodup) (hpid : pid ≠ 0)
    (hfind : db.principals.find? (fun x => x.id == pid) = some dbp)
    (hown : ¬(upd.ownership_percentage.isSome && decide
      (calculate_total_ownership db dbp.merchant_id (some pid) +
        (upd.ownership_percentage.getD none).getD 0 > 100)) = true) :
    exclTotal db.principals m pid + ownContrib
      { dbp with
        first_name := upd.first_name.getD dbp.first_name
        last_name := upd.last_name.getD dbp.last_name
        ownership_percentage := match upd.ownership_percentage with
          | some v => v | none => dbp.ownership_percentage
        ssn := match upd.ssn with | some v => v | none => dbp.ssn
        is_primary_contact := upd.is_primary_contact.getD dbp.is_primary_contact
        is_guarantor := upd.is_guarantor.getD dbp.is_guarantor } m ≤ 100 := by
  refine excl_plus_contrib_bound db.principals m pid dbp _ hnd hfind ?_ ?_ ?_
  · rfl
  · intro m'
    have hh := hinv m'
    rw [calcOwn_none] at hh
    exact hh
  cases hpct : upd.ownership_percentage with
  | none =>
    left
    simp [hpct]
  | some v =>
    right
    rw [hpct] at hown
    simp only [Option.isSome_some, Bool.true_and, decide_eq_true_eq] at hown
    rw [calcOwn_some db dbp.merchant_id pid hpid] at hown
    simpa [hpct] using le_of_not_lt hown

/-- C5: §4.6 ownership bound.  Starting from a store whose every merchant
sums to at most 100, any successful `create_principal` or
`update_principal` (with the real primary-key discipline: distinct row ids,
ids nonzero) leaves every merchant's ownership sum at most 100; and any
create or update whose merged total would exceed 100 is rejected with
`OwnershipExceededError` carrying that total — an error result carries no
state change, the transaction being rolled back. -/
theorem c5_ownership_sum_bounded :
    (∀ (db : DB) (p : PrincipalCreate) (db' : DB) (r : Principal),
      (∀ m, calculate_total_ownership db m none ≤ 100) →
      create_principal db p = .ok (db', r) →
      ∀ m, calculate_total_ownership db' m none ≤ 100) ∧
    (∀ (db : DB) (pid : Nat) (upd : PrincipalUpdate) (db' : DB)
        (r : Option Principal),
      (∀ m, calculate_total_ownership db m none ≤ 100) →
      (db.principals.map (·.id)).Nodup → pid ≠ 0 →
      update_principal db pid upd = .ok (db', r) →
      ∀ m, calculate_total_ownership db' m none ≤ 100) ∧
    (∀ (db : DB) (p : PrincipalCreate),
      (db.merchants.find? (fun x => x.id == p.merchant_id)).isNone = false →
      (truthyStr p.ssn && (db.principals.find? (fun q =>
        q.merchant_id == p.merchant_id && q.ssn == p.ssn)).isSome) = false →
      calculate_total_ownership db p.merchant_id none +
        p.ownership_percentage.getD 0 > 100 →
      create_principal db p = .error (.ownershipExceeded
        (calculate_total_ownership db p.merchant_id none +
          p.ownership_percentage.getD 0))) ∧
    (∀ (db : DB) (pid : Nat) (upd : PrincipalUpdate) (dbp : Principal),
      db.principals.find? (fun x => x.id == pid) = some dbp →
      (upd.ssn.isSome && truthyStr (upd.ssn.getD none) &&
        (db.principals.find? (fun q => q.merchant_id == dbp.merchant_id &&
          q.ssn == upd.ssn.getD none && q.id != pid)).isSome) = false →
      upd.ownership_percentage.isSome = true →
      calculate_total_ownership db dbp.merchant_id (some pid) +
        (upd.ownership_percentage.getD none).getD 0 > 100 →
      update_principal db pid upd = .error (.ownershipExceeded
        (calculate_total_ownership db dbp.merchant_id (some pid) +
          (upd.ownership_percentage.getD none).getD 0))) := by
  refine ⟨?_, ?_, ?_, ?_⟩
  · -- create success
    intro db p db' r hinv hok
    simp only [create_principal] at hok
    split_ifs at hok with h1 h2 h3 hpc
    · simp only [Except.ok.injEq, Prod.mk.injEq] at hok
      obtain ⟨rfl, rfl⟩ := hok
      intro m
      rw [calcOwn_none]
      dsimp only
      refine ownTotal_append_single_bound db.principals _ _ m ?_ ?_ ?_
      · have hh := hinv m
        rw [calcOwn_none] at hh
        exact hh
      · rw [calcOwn_none] at h3
        exact le_of_not_lt h3
      · exact ownTotal_map_pres db.principals (unsetPrimary p.merchant_id)
          (fun q => unsetPrimary_merchant _ _)
          (fun q => unsetPrimary_pct _ _) m
    · simp only [Except.ok.injEq, Prod.mk.injEq] at hok
      obtain ⟨rfl, rfl⟩ := hok
      intro m
      rw [calcOwn_none]
      dsimp only
      refine ownTotal_append_single_bound db.principals _ _ m ?_ ?_ rfl
      · have hh := hinv m
        rw [calcOwn_none] at hh
        exact hh
      · rw [calcOwn_none] at h3
        exact le_of_not_lt h3
  · -- update success
    intro db pid upd db' r hinv hnd hpid hok
    simp only [update_principal] at hok
    cases hfind : db.principals.find? (fun x => x.id == pid) with
    | none =>
      simp only [hfind] at hok
      simp only [Except.ok.injEq, Prod.mk.injEq] at hok
      obtain ⟨rfl, rfl⟩ := hok
      exact hinv
    | some dbp =>
      simp only [hfind] at hok
      split_ifs at hok with hssn hown hpc
      · simp only [Except.ok.injEq, Prod.mk.injEq] at hok
        obtain ⟨rfl, rfl⟩ := hok
        intro m
        rw [calcOwn_none]
        dsimp only
        rw [ownTotal_updateFirst_map db.principals m pid dbp _
            (unsetPrimaryExcept dbp.merchant_id pid)
            (fun q => unsetPrimaryExcept_merchant _ _ _)
            (fun q => unsetPrimaryExcept_pct _ _ _)
            (fun q => unsetPrimaryExcept_id _ _ _) hnd hfind]
        exact update_tail_bound db pid upd dbp m hinv hnd hpid hfind hown
      · simp only [Except.ok.injEq, Prod.mk.injEq] at hok
        obtain ⟨rfl, rfl⟩ := hok
        intro m
        rw [calcOwn_none]
        dsimp only
        rw [ownTotal_updateFirst db.principals m pid dbp _ hnd hfind]
        exact update_tail_bound db pid upd dbp m hinv hnd hpid hfind hown
  · -- create rejection
    intro db p h1 h2 h3
    simp [create_principal, h1, h2, h3]
  · -- update rejection
    intro db pid upd dbp hfind hssn hiso hover
    simp [update_principal, hfind, hssn, hiso, hover]

/-- C5 witness: on merchant 1 owning 60 percent through one principal,
creating a 41-percent principal is rejected with the over-100 error, and
raising the existing principal to 101 percent is rejected likewise. -/
theorem c5_witness_rejections :
    create_principal dbC5 pC5over = .error (.ownershipExceeded 101) ∧
    update_principal dbC5 1 pC5updOver = .error (.ownershipExceeded 101) := by
  constructor
  · have h := c5_ownership_sum_bounded.2.2.1 dbC5 pC5over rfl rfl
      (by norm_num [calculate_total_ownership, dbC5, principal60, pC5over, truthyNat])
    rw [h]
    norm_num [calculate_total_ownership, dbC5, principal60, pC5over, truthyNat]
  · have h := c5_ownership_sum_bounded.2.2.2 dbC5 1 pC5updOver principal60 rfl rfl rfl
      (by norm_num [calculate_total_ownership, dbC5, principal60, pC5updOver,
        truthyNat])
    rw [h]
    norm_num [calculate_total_ownership, dbC5, principal60, pC5updOver, truthyNat]

/-- C7: on every store reachable by sequential deal creation (the `SeqInv`
invariant: year-patterned numbers are well formed and the newest row holds
the greatest sequence), `generate_deal_number` returns
`"MCA-<year>-<seq>"` with seq the year's highest existing sequence number
plus 1 (1 when the year is empty), zero-padded through the rendering; the
generated number differs from every stored deal number; and `create_deal`
appends exactly that number, preserves the invariant, and preserves
distinctness of the stored deal numbers — so under sequential creation
every generated deal_number is distinct. -/
theorem c7_deal_number_generation (y : Nat) (db : DB)
    (hinv : SeqInv y db.deals) :
    generate_deal_number db.deals y =
      some (renderDealNumber y (maxSeq y db.deals + 1)) ∧
    (∀ d ∈ db.deals,
      d.deal_number ≠ renderDealNumber y (maxSeq y db.deals + 1)) ∧
    (∀ (dc : DealCreate) (now : Nat) (db' : DB) (nd : Deal),
      create_deal db dc y now = .ok (db', nd) →
      nd.deal_number = renderDealNumber y (maxSeq y db.deals + 1) ∧
      db'.deals.map (·.deal_number) =
        db.deals.map (·.deal_number) ++ [nd.deal_number] ∧
      SeqInv y db'.deals ∧
      ((db.deals.map (·.deal_number)).Nodup →
        (db'.deals.map (·.deal_number)).Nodup)) := by
  refine ⟨generate_eq_of_inv y db.deals hinv, generated_fresh y db.deals, ?_⟩
  intro dc now db' nd hok
  simp only [create_deal] at hok
  cases hoff : db.offers.find? (fun o => o.id == dc.offer_id) with
  | none => simp [hoff] at hok
  | some offer =>
    simp only [hoff, generate_eq_of_inv y db.deals hinv] at hok
    simp only [Except.ok.injEq, Prod.mk.injEq] at hok
    obtain ⟨rfl, rfl⟩ := hok
    refine ⟨rfl, by simp, ?_, ?_⟩
    · apply seqInv_append y db.deals _ hinv ?_ rfl
      intro x hx
      have hxd : x ∈ db.deals := (List.mem_filter.mp hx).1
      have hle : x.id ≤ (db.deals.map (fun z => z.id)).foldr max 0 :=
        le_foldr_max _ _ (List.mem_map_of_mem _ hxd)
      simp only [freshId]
      omega
    · intro hnod
      dsimp only
      rw [List.map_append]
      refine List.Nodup.append hnod (by simp) ?_
      intro s hs hs1
      have hs' : s = renderDealNumber y (maxSeq y db.deals + 1) := by
        simpa using hs1
      obtain ⟨d, hd, rfl⟩ := List.mem_map.mp hs
      exact generated_fresh y db.deals d hd hs'

/-- C7 witness: on the year-2025 store holding MCA-2025-0001 and
MCA-2025-0002 (newest id 2), the generator produces MCA-2025-0003. -/
theorem c7_witness_next_number :
    generate_deal_number dbC7.deals 2025 = some "MCA-2025-0003" := by
  have hi : SeqInv 2025 dbC7.deals := by
    unfold SeqInv
    decide
  have h := (c7_deal_number_generation 2025 dbC7 hi).1
  rw [h]
  decide

/-- C6: the claim says every operation that sets an Offer status to
sent/selected/funded writes the matching timestamp only if it is currently
null.  That holds for `update_offer`, but `create_deal` stamps
`offer.funded_at = datetime.utcnow()` unconditionally (lines 104-105):
re-funding the already-funded offer (funded_at = day 5) on day 9 overwrites
the timestamp with day 9. -/
theorem c6_counterexample_create_deal_overwrites_funded_at :
    ((create_deal dbC6 dealCreateC6 2025 9).map
      (fun r => r.1.offers.map (·.funded_at))) = .ok [some 9] ∧
    offerC6.funded_at = some 5 ∧ (9 : Nat) ≠ 5 := by
  exact ⟨rfl, rfl, by decide⟩

/-- C6 (amended): `update_offer` is idempotent on the transition
timestamps — when the patched status is sent/selected/funded and the
matching timestamp is already set, it is left unchanged — but `create_deal`
and `create_renewal_deal` always rewrite the consumed offer to
`status = "funded", funded_at = now`, overwriting any existing
`funded_at`. -/
theorem c6_update_offer_idempotent_create_overwrites :
    (∀ (db : DB) (oid : Nat) (upd : OfferUpdate) (now : Nat) (o : Offer) (t : Nat),
      db.offers.find? (fun x => x.id == oid) = some o →
      upd.status = some "sent" → o.sent_at = some t →
      ((update_offer db oid upd now).2.map (·.sent_at)) = some (some t)) ∧
    (∀ (db : DB) (oid : Nat) (upd : OfferUpdate) (now : Nat) (o : Offer) (t : Nat),
      db.offers.find? (fun x => x.id == oid) = some o →
      upd.status = some "selected" → o.selected_at = some t →
      ((update_offer db oid upd now).2.map (·.selected_at)) = some (some t)) ∧
    (∀ (db : DB) (oid : Nat) (upd : OfferUpdate) (now : Nat) (o : Offer) (t : Nat),
      db.offers.find? (fun x => x.id == oid) = some o →
      upd.status = some "funded" → o.funded_at = some t →
      ((update_offer db oid upd now).2.map (·.funded_at)) = some (some t)) ∧
    (∀ (db : DB) (dc : DealCreate) (y now : Nat) (o : Offer) (num : String),
      db.offers.find? (fun x => x.id == dc.offer_id) = some o →
      generate_deal_number db.deals y = some num →
      ((create_deal db dc y now).map (fun r => r.1.offers)) =
        .ok (updateFirst (fun x => x.id == dc.offer_id)
          (fun x => { x with status := "funded", funded_at := some now })
          db.offers)) ∧
    (∀ (db : DB) (rd : CreateRenewalDeal) (y now : Nat) (o : Offer) (num : String),
      db.offers.find? (fun x => x.id == rd.offer_id) = some o →
      generate_deal_number db.deals y = some num →
      ((create_renewal_deal db rd y now).map (fun r => r.1.offers)) =
        .ok (updateFirst (fun x => x.id == rd.offer_id)
          (fun x => { x with status := "funded", funded_at := some now })
          db.offers)) := by
  refine ⟨?_, ?_, ?_, ?_, ?_⟩
  · intro db oid upd now o t hfind hs hsent
    simp [update_offer, hfind, hs, hsent, apply_ite (fun x : Offer => x.sent_at)]
  · intro db oid upd now o t hfind hs hsel
    simp [update_offer, hfind, hs, hsel,
      apply_ite (fun x : Offer => x.selected_at)]
  · intro db oid upd now o t hfind hs hfun
    simp [update_offer, hfind, hs, hfun,
      apply_ite (fun x : Offer => x.funded_at)]
  · intro db dc y now o num hfind hgen
    simp [create_deal, hfind, hgen, Except.map]
  · intro db rd y now o num hfind hgen
    simp [create_renewal_deal, hfind, hgen, Except.map]

/-- C6 witness: on the stamped offer (sent day 1, selected day 2, funded
day 5), re-applying each status through `update_offer` on day 9 preserves
the original timestamps, while `create_deal` and `create_renewal_deal`
rewrite `funded_at` to day 9. -/
theorem c6_witness_timestamps :
    ((update_offer dbC6 1 { status := some "sent" } 9).2.map (·.sent_at)) =
      some (some 1) ∧
    ((update_offer dbC6 1 { status := some "selected" } 9).2.map
      (·.selected_at)) = some (some 2) ∧
    ((update_offer dbC6 1 { status := some "funded" } 9).2.map
      (·.funded_at)) = some (some 5) ∧
    ((create_deal dbC6 dealCreateC6 2025 9).map (fun r => r.1.offers)) =
      .ok [{ offerC6 with status := "funded", funded_at := some 9 }] ∧
    ((create_renewal_deal dbC6 renewalCreateC6 2025 9).map
      (fun r => r.1.offers)) =
      .ok [{ offerC6 with status := "funded", funded_at := some 9 }] := by
  refine ⟨c6_update_offer_idempotent_create_overwrites.1 dbC6 1 _ 9 offerC6 1
      rfl rfl rfl,
    c6_update_offer_idempotent_create_overwrites.2.1 dbC6 1 _ 9 offerC6 2
      rfl rfl rfl,
    c6_update_offer_idempotent_create_overwrites.2.2.1 dbC6 1 _ 9 offerC6 5
      rfl rfl rfl, ?_, ?_⟩
  · have h := c6_update_offer_idempotent_create_overwrites.2.2.2.1 dbC6
      dealCreateC6 2025 9 offerC6 "MCA-2025-0001" rfl rfl
    rw [h]
    rfl
  · have h := c6_update_offer_idempotent_create_overwrites.2.2.2.2 dbC6
      renewalCreateC6 2025 9 offerC6 "MCA-2025-0001" rfl rfl
    rw [h]
    rfl

/-- C10: the claim says that for a RenewalInfo linked to a Deal through a
junction, any `update_renewal_info` patch containing `transfer_balance`
raises before reaching commit — line 266 reads `deal.upfront_fees`, a
column the Deal model does not define — so the linked Deal's
`total_transfer_balance` and `net_cash_to_merchant` are never updated
through this operation.  Confirmed: under exactly those conditions the
operation returns the `AttributeError`, and an error result carries no
state (the transaction is rolled back). -/
theorem c10_update_renewal_info_always_raises (db : DB) (rid : Nat)
    (upd : RenewalInfoUpdate) (ri : RenewalInfo) (j : DealRenewalJunction)
    (d : Deal)
    (hri : db.renewal_infos.find? (fun r => r.id == rid) = some ri)
    (htb : upd.transfer_balance.isSome = true)
    (hj : db.junctions.find? (fun jx => jx.renewal_info_id == rid) = some j)
    (hd : db.deals.find? (fun dd => dd.id == j.deal_id) = some d) :
    update_renewal_info db rid upd =
      .error (.attributeError "Deal object has no attribute upfront_fees") := by
  simp [update_renewal_info, hri, htb, hj, hd]

/-- C10 witness: on the concrete store with renewal info 1 joined to
renewal deal 2, patching transfer_balance raises the AttributeError. -/
theorem c10_witness_concrete_raise :
    update_renewal_info dbC10 1 { transfer_balance := some 400 } =
      .error (.attributeError "Deal object has no attribute upfront_fees") :=
  c10_update_renewal_info_always_raises dbC10 1 _ riC10 ⟨1, 2, 1⟩
    { dealA with id := 2, is_renewal := true } rfl rfl rfl rfl

/-- C9: the claim says the per-deal payment summary with its default
`include_deleted = False` terminates normally on every store.  On the code
it never does: line 73 materialises the query into a Python list and line
76 then calls `.filter` on that list, raising `AttributeError` for every
store and every deal id. -/
theorem c9_payment_summary_always_raises (db : DB) (deal_id : Nat) :
    get_payment_summary_by_deal db deal_id false =
      .error (.attributeError "list object has no attribute filter") := rfl

end MCA

